import Mathlib

/-!
# Views Asset Manager: folder controller, state store and grid renderer

A shallow embedding of `client/js/state.js`, `client/js/folderController.js`
and the parts of `client/js/ui.js` that the folder controller and the asset
grid use, followed by theorems about them.

Conventions of the embedding

* The process-wide mutable `state` object, the DOM nodes held in
  `UI.elements` and the calls made to collaborators that are not part of these
  files (`API`, `Preferences`, `Utils.log`, the caller-supplied view-refresh
  function) are threaded explicitly through a `World`.
* A JavaScript value that is used as a folder id is a `Val`: `null`,
  `undefined`, a boolean or a string. Folder ids themselves are strings.
* A JavaScript object used as a dictionary (`folderMap`, `aiFolderMap`) is the
  list of its own properties, in the order in which the language lists them,
  together with its prototype. A property read that finds no own property goes
  on through the prototype, so it also finds the members of `Object.prototype`
  (`constructor`, `toString`, ...); a write under the key `__proto__` replaces
  the prototype and adds no own property.
* A promise is represented by the way it settles. A call is modelled as one
  atomic run; interleaving with other tasks at an `await` is outside the model.
* The `while` loop of the path builders is run with an explicit iteration
  budget; `none` means the budget was used up with the loop still running.
-/

namespace Views

/-! ## Values -/

/-- A JavaScript value as far as folder ids are concerned. -/
inductive Val where
  | null
  | undefined
  | bool (b : Bool)
  | str (s : String)
  deriving DecidableEq, Repr

namespace Val

/-- The JavaScript conversion `String(v)`. -/
def toStr : Val → String
  | null => "null"
  | undefined => "undefined"
  | bool true => "true"
  | bool false => "false"
  | str s => s

/-- The JavaScript truthiness of a value, as tested by `if (v)` and `v && e`. -/
def truthy : Val → Bool
  | null => false
  | undefined => false
  | bool b => b
  | str s => s != ""

end Val

/-- An opaque reference to a caller-supplied JavaScript value (a callbacks
object or a function). -/
abbrev Ref := Nat

/-- The way a promise settles. -/
inductive Settled (α : Type) where
  | resolved (value : α)
  | rejected (error : String)
  deriving DecidableEq, Repr

/-! ## Data model -/

/-- A folder record `{id, name, parentId}`. -/
structure Folder where
  id : String
  name : String
  parentId : Val
  deriving DecidableEq, Repr

/-- An asset record; rendering depends on `id`, `name` and `thumbnail` only. -/
structure Asset where
  id : String
  name : String
  thumbnail : Option String
  deriving DecidableEq, Repr

/-- The value a folder request yields: `some L` is an array, `none` is a falsy
value (`null`, `undefined`). An array is truthy, also when it is empty. -/
abbrev FolderList := Option (List Folder)

/-- A value that a property read on a folder map can yield, and so an element
of a path: a folder object, a primitive value, or the value of the member
`name` of `Object.prototype` (a function; for `__proto__` it is
`Object.prototype` itself). -/
inductive Item where
  | folder (f : Folder)
  | prim (v : Val)
  | builtin (name : String)
  deriving DecidableEq, Repr

/-- The JavaScript truthiness of an item; every object is truthy. -/
def Item.truthy : Item → Bool
  | Item.folder _ => true
  | Item.prim v => v.truthy
  | Item.builtin _ => true

/-- The property read `item.parentId` on a truthy item: the field of a folder,
`undefined` on a string, a boolean, a function and on `Object.prototype`. -/
def Item.parentId : Item → Val
  | Item.folder f => f.parentId
  | Item.prim _ => Val.undefined
  | Item.builtin _ => Val.undefined

/-- The property read `item.id` on a truthy item. -/
def Item.id : Item → Val
  | Item.folder f => Val.str f.id
  | Item.prim _ => Val.undefined
  | Item.builtin _ => Val.undefined

/-- The names of the members of `Object.prototype`. -/
def objectPrototypeMembers : List String :=
  ["constructor", "__defineGetter__", "__defineSetter__", "hasOwnProperty",
    "__lookupGetter__", "__lookupSetter__", "isPrototypeOf", "propertyIsEnumerable",
    "toString", "valueOf", "__proto__", "toLocaleString"]

/-- The number written by a list of decimal digits, given the number written
by the digits before them; `none` when a character is not a digit. -/
def parseDigits : List Char → Nat → Option Nat
  | [], acc => some acc
  | c :: cs, acc =>
    if 48 ≤ c.toNat ∧ c.toNat ≤ 57 then parseDigits cs (acc * 10 + (c.toNat - 48)) else none

/-- The array index that a property key stands for: the key is the canonical
decimal form of an integer from 0 to 2^32 - 2. Such keys are listed before all
other keys of an object, in ascending order. -/
def arrayIndex (key : String) : Option Nat :=
  match key.data with
  | [] => none
  | c :: cs =>
    if c.toNat = 48 ∧ cs ≠ [] then none
    else
      match parseDigits (c :: cs) 0 with
      | some n => if n < 4294967295 then some n else none
      | none => none

/-- Whether a new key `key` is listed before the existing key `other`. -/
def listedBefore (key other : String) : Bool :=
  match arrayIndex key, arrayIndex other with
  | some a, some b => decide (a < b)
  | some _, none => true
  | none, _ => false

/-- A new own property is added: an array index goes to its place among the
array indices, any other key to the end. -/
def insertNew : List (String × Folder) → String → Folder → List (String × Folder)
  | [], key, folder => [(key, folder)]
  | (k, v) :: rest, key, folder =>
    if listedBefore key k then (key, folder) :: (k, v) :: rest
    else (k, v) :: insertNew rest key folder

/-- The write of an own property: an existing key keeps its place and gets the
new value, a new key is added. -/
def setOwn (own : List (String × Folder)) (key : String) (folder : Folder) :
    List (String × Folder) :=
  if (List.lookup key own).isSome then
    own.map fun e => if e.1 = key then (e.1, folder) else e
  else insertNew own key folder

/-- An id-to-folder dictionary, a JavaScript object created by `{}` and written
by `map[id] = folder` only: its own properties in the order in which they are
listed, and its prototype, which is `Object.prototype` (`none`) until a write
under `__proto__` makes it a folder object. -/
structure FolderMap where
  own : List (String × Folder)
  proto : Option Folder
  deriving DecidableEq, Repr

namespace FolderMap

/-- The object `{}`. -/
def empty : FolderMap :=
  { own := [], proto := none }

/-- The property read `map[key]`; `none` is `undefined`. An own property is
found first; then the fields of a folder that is the prototype; then the
members of `Object.prototype`, whose `__proto__` getter yields the prototype of
the map. -/
def get (m : FolderMap) (key : String) : Option Item :=
  match List.lookup key m.own with
  | some folder => some (Item.folder folder)
  | none =>
    match m.proto with
    | some g =>
      if key = "id" then some (Item.prim (Val.str g.id))
      else if key = "name" then some (Item.prim (Val.str g.name))
      else if key = "parentId" then some (Item.prim g.parentId)
      else if key = "__proto__" then some (Item.folder g)
      else if key ∈ objectPrototypeMembers then some (Item.builtin key)
      else none
    | none => if key ∈ objectPrototypeMembers then some (Item.builtin key) else none

/-- The property write `map[key] = folder`. Under the key `__proto__` it runs
the setter inherited from `Object.prototype`, which makes `folder` the
prototype of the map and adds no own property; under any other key it writes
an own property. -/
def set (m : FolderMap) (key : String) (folder : Folder) : FolderMap :=
  if key = "__proto__" then { m with proto := some folder }
  else { m with own := setOwn m.own key folder }

/-- The own keys of the dictionary. -/
def keys (m : FolderMap) : List String :=
  m.own.map Prod.fst

/-- The number of entries (own properties) of the dictionary. -/
def size (m : FolderMap) : Nat :=
  m.own.length

end FolderMap

/-- The field `state.pagination`. -/
structure Pagination where
  page : Nat
  limit : Nat
  total : Nat
  deriving DecidableEq, Repr

/-- The application state object of `state.js`. -/
structure State where
  currentTab : String
  allAssets : List Asset
  displayedAssets : List Asset
  filteredAssets : List Asset
  searchResults : List Asset
  selectedAssetIds : List String
  previewAsset : Option Asset
  allAIAssets : List Asset
  displayedAIAssets : List Asset
  filteredAIAssets : List Asset
  searchAIResults : List Asset
  selectedAIAssetIds : List String
  aiVisibleCount : Nat
  preloadAIPromise : Option (Settled (Option (List Asset)))
  aiAssetsSynced : Bool
  folders : FolderList
  folderMap : FolderMap
  aiFolders : FolderList
  aiFolderMap : FolderMap
  aiFoldersSynced : Bool
  preloadAIFoldersPromise : Option (Settled FolderList)
  selectedFolderId : Val
  currentFolderPath : List Item
  searchQuery : String
  apiKey : String
  deviceId : Option String
  isFirstRun : Bool
  isWelcome : Bool
  pagination : Pagination
  visibleCount : Nat
  fetchSession : Int
  cache : List (String × List Asset)
  preloadPromise : Option (Settled (Option (List Asset)))
  preloadFoldersPromise : Option (Settled FolderList)
  deriving DecidableEq, Repr

/-- The state object as `state.js` creates it. -/
def State.initial : State where
  currentTab := "png"
  allAssets := []
  displayedAssets := []
  filteredAssets := []
  searchResults := []
  selectedAssetIds := []
  previewAsset := none
  allAIAssets := []
  displayedAIAssets := []
  filteredAIAssets := []
  searchAIResults := []
  selectedAIAssetIds := []
  aiVisibleCount := 20
  preloadAIPromise := none
  aiAssetsSynced := false
  folders := some []
  folderMap := FolderMap.empty
  aiFolders := some []
  aiFolderMap := FolderMap.empty
  aiFoldersSynced := false
  preloadAIFoldersPromise := none
  selectedFolderId := Val.null
  currentFolderPath := []
  searchQuery := ""
  apiKey := ""
  deviceId := none
  isFirstRun := false
  isWelcome := true
  pagination := { page := 1, limit := 20, total := 0 }
  visibleCount := 20
  fetchSession := 0
  cache := []
  preloadPromise := none
  preloadFoldersPromise := none

/-- The function `State.resetPagination`. -/
def resetPagination (s : State) : State :=
  { s with pagination := { s.pagination with page := 1 }, visibleCount := 20 }

/-- The number that JavaScript arithmetic yields when the exact result is the
integer `x`: `x` itself up to magnitude `2^53`, beyond that the nearest number
with a 53-bit significand, a tie going to the even significand. Magnitudes
beyond the largest finite number are outside the model. -/
def roundToDouble (x : Int) : Int :=
  let a := x.natAbs
  if a ≤ 2 ^ 53 then x
  else
    let e := Nat.log2 a - 52
    let q := a / 2 ^ e
    let r := a % 2 ^ e
    let half := 2 ^ (e - 1)
    let q1 := if half < r ∨ (r = half ∧ q % 2 = 1) then q + 1 else q
    Int.sign x * ((q1 * 2 ^ e : Nat) : Int)

/-- The function `State.incrementFetchSession`: the returned session id and
the state left behind. -/
def incrementFetchSession (s : State) : Int × State :=
  let s1 := { s with fetchSession := roundToDouble (s.fetchSession + 1) }
  (s1.fetchSession, s1)

/-- The state after `k` calls of `incrementFetchSession` in a row. -/
def afterIncrements : Nat → State → State
  | 0, s => s
  | k + 1, s => afterIncrements k (incrementFetchSession s).2

/-! ## Path reconstruction -/

/-- The loop condition `currentId && map[currentId]` of the path builders: the
value the condition finds, or `none` when the condition is falsy. -/
def lookupFolder (m : FolderMap) (currentId : Val) : Option Item :=
  if currentId.truthy then (m.get currentId.toStr).filter Item.truthy else none

/-- The `while` loop of `buildFolderPath` and `buildAIFolderPath`, started with
`currentId` and `path`; each iteration does `path.unshift(folder)` and moves to
`folder.parentId`. At most `fuel` iterations are run. -/
def pathLoop : Nat → FolderMap → Val → List Item → Option (List Item)
  | 0, m, currentId, path =>
    match lookupFolder m currentId with
    | none => some path
    | some _ => none
  | fuel + 1, m, currentId, path =>
    match lookupFolder m currentId with
    | none => some path
    | some folder => pathLoop fuel m folder.parentId (folder :: path)

/-- The function `buildFolderPath`, over `state.folderMap`. -/
def buildFolderPath (fuel : Nat) (s : State) (folderId : Val) : Option (List Item) :=
  pathLoop fuel s.folderMap folderId []

/-- The function `buildAIFolderPath`, over `state.aiFolderMap`. -/
def buildAIFolderPath (fuel : Nat) (s : State) (folderId : Val) : Option (List Item) :=
  pathLoop fuel s.aiFolderMap folderId []

/-- The key that the loop of the path builders, started at `currentId`, looks
up in the iteration that follows `n` completed iterations; `none` when the loop
has ended by then. It is `some` exactly when the loop condition holds after
`n` iterations. -/
def visitedKey (m : FolderMap) : Val → Nat → Option String
  | currentId, 0 =>
    match lookupFolder m currentId with
    | none => none
    | some _ => some currentId.toStr
  | currentId, n + 1 =>
    match lookupFolder m currentId with
    | none => none
    | some folder => visitedKey m folder.parentId n

/-- A list of folders is the parent chain of `target` in `m`, ordered from the
root to the target: its last element is `m[target]`, its first element has a
null `parentId`, and the `parentId` of every element is the key of the element
before it. -/
def IsRootPath (m : FolderMap) (target : Val) (p : List Folder) : Prop :=
  p.getLast?.map Item.folder = lookupFolder m target ∧
  p.head?.map Folder.parentId = some Val.null ∧
  List.Chain' (fun a b => lookupFolder m b.parentId = some (Item.folder a)) p

/-! ## The world around the state: DOM, collaborators, completions -/

/-- A call made to a collaborator that is not defined in these files. -/
inductive Event where
  | log (message : String)
  | fetchFolders
  | fetchAIFolders
  | setLastFolder (id : String)
  | setLastAIFolder (id : String)
  | hideBreadcrumbs
  | renderBreadcrumbs (path : List Item) (callbacks : Ref) (fn : Ref)
  | expandToFolder (targetId : String) (pathIds : List Val)
  | call (fn : Ref) (argument : Ref)
  deriving DecidableEq, Repr

/-- A `.folder-item` element of the sidebar list: its `data-folder-id` and
whether it carries the class `folder-item--active`. -/
structure FolderItem where
  folderId : Option String
  active : Bool
  deriving DecidableEq, Repr

/-- The element `#searchStats`: its text and whether it carries the class
`search-stats--active`. -/
structure SearchStats where
  text : String
  active : Bool
  deriving DecidableEq, Repr

/-- The icon drawn in the empty state of the grid. -/
inductive EmptyIcon where
  | search
  | folder
  deriving DecidableEq, Repr

/-- The `div.asset-grid__empty` element: its icon, the text of its message
paragraph and the text of its hint paragraph when there is one. -/
structure EmptyState where
  icon : EmptyIcon
  text : String
  hint : Option String
  deriving DecidableEq, Repr

/-- The `src` of a card thumbnail. -/
inductive Thumb where
  | url (src : String)
  | placeholder
  deriving DecidableEq, Repr

/-- The `article.asset-card` element built by `createAssetCard`. -/
structure Card where
  alt : String
  src : Thumb
  title : String
  tooltip : String
  asset : Asset
  onImport : Ref
  animationDelay : Option Nat
  deriving DecidableEq, Repr

/-- A child of the element `#assetGrid`. -/
inductive GridNode where
  | empty (e : EmptyState)
  | card (c : Card)
  | skeleton
  | welcome
  deriving DecidableEq, Repr

/-- The DOM nodes held in `UI.elements` that the modelled functions touch. The
elements `#assetGrid` and `#folderList` are dereferenced without a check by
the code and are taken to exist; the search elements are checked by the code
and may be absent (`none`). -/
structure Dom where
  grid : List GridNode
  folderItems : List FolderItem
  searchInput : Option String
  clearSearchBtnHidden : Option Bool
  searchStats : Option SearchStats
  deriving DecidableEq, Repr

/-- The state object, the DOM and the calls made to collaborators so far. -/
structure World where
  state : State
  dom : Dom
  trace : List Event
  deriving DecidableEq, Repr

/-- Record a call to a collaborator. -/
def World.emit (w : World) (e : Event) : World :=
  { w with trace := w.trace ++ [e] }

/-- How a call ends: it returns (an `async` function resolves), it throws (an
`async` function rejects), or the iteration budget ran out inside a loop. -/
inductive Completion (α : Type) where
  | returned (value : α)
  | threw (error : String)
  | outOfFuel
  deriving DecidableEq, Repr

/-- Which of the members that the folder controller calls on `Views.UI`, and
that `ui.js` does not define, are present on the object (added by another
script). -/
structure UIModule where
  hideBreadcrumbs : Bool
  renderBreadcrumbs : Bool
  expandToFolder : Bool
  deriving DecidableEq, Repr

/-- The object `Views.UI` exactly as `ui.js` exposes it: `elements`,
`clearSearch` and the other listed members, and none of `hideBreadcrumbs`,
`renderBreadcrumbs`, `expandToFolder`. -/
def UIModule.uiJs : UIModule :=
  { hideBreadcrumbs := false, renderBreadcrumbs := false, expandToFolder := false }

/-- A `Views.UI` object on which the three breadcrumb members are present. -/
def UIModule.extended : UIModule :=
  { hideBreadcrumbs := true, renderBreadcrumbs := true, expandToFolder := true }

/-! ## Folder loading -/

/-- The statements `map = {}; folders.forEach(f => map[f.id] = f)`. -/
def buildMap (folders : List Folder) : FolderMap :=
  folders.foldl (fun m folder => m.set folder.id folder) FolderMap.empty

/-- The function `loadFolders`. `fetch` is the way the promise of
`API.fetchFolders()` settles if the call is made. -/
def loadFolders (w : World) (fetch : Settled FolderList) : Completion (List Folder) × World :=
  let obtained : Settled FolderList × World :=
    match w.state.preloadFoldersPromise with
    | some preload =>
      let w1 := w.emit (Event.log "Using preloaded folders...")
      match preload with
      | Settled.rejected e => (Settled.rejected e, w1)
      | Settled.resolved folders =>
        let w2 := { w1 with state := { w1.state with preloadFoldersPromise := none } }
        match folders with
        | some L => (Settled.resolved (some L), w2)
        | none =>
          (fetch, (w2.emit (Event.log "Preloaded folders unavailable, fetching fresh...")).emit
            Event.fetchFolders)
    | none => (fetch, w.emit Event.fetchFolders)
  match obtained with
  | (Settled.rejected e, w3) => (Completion.threw e, w3)
  | (Settled.resolved folders, w3) =>
    let w4 := { w3 with state :=
      { w3.state with folders := folders, folderMap := FolderMap.empty } }
    match folders with
    | none => (Completion.threw "TypeError", w4)
    | some L =>
      let w5 := { w4 with state := { w4.state with folderMap := buildMap L } }
      (Completion.returned L,
        w5.emit (Event.log ("Loaded " ++ toString L.length ++ " PNG folders into state.")))

/-- The function `loadAIFolders`. `fetch` is the way the promise of
`API.fetchAIFolders()` settles if the call is made. -/
def loadAIFolders (w : World) (fetch : Settled FolderList) : Completion (List Folder) × World :=
  let obtained : Settled FolderList × World :=
    match w.state.preloadAIFoldersPromise with
    | some preload =>
      let w1 := w.emit (Event.log "Using preloaded AI folders...")
      match preload with
      | Settled.rejected e => (Settled.rejected e, w1)
      | Settled.resolved folders =>
        let w2 := { w1 with state := { w1.state with preloadAIFoldersPromise := none } }
        match folders with
        | some L => (Settled.resolved (some L), w2)
        | none =>
          (fetch, (w2.emit (Event.log "Preloaded AI folders unavailable, fetching fresh...")).emit
            Event.fetchAIFolders)
    | none => (fetch, w.emit Event.fetchAIFolders)
  match obtained with
  | (Settled.rejected e, w3) => (Completion.threw e, w3)
  | (Settled.resolved folders, w3) =>
    let L := folders.getD []
    let w4 := { w3 with state :=
      { w3.state with aiFolders := some L, aiFoldersSynced := true, aiFolderMap := buildMap L } }
    (Completion.returned L,
      w4.emit (Event.log ("Loaded " ++ toString L.length ++ " AI folders into state.")))

/-- The renaming between the two folder collections: `folders`, `folderMap`
and `preloadFoldersPromise` change places with `aiFolders`, `aiFolderMap` and
`preloadAIFoldersPromise`; every other field stays. -/
def State.swapCollections (s : State) : State :=
  { s with
    folders := s.aiFolders
    folderMap := s.aiFolderMap
    preloadFoldersPromise := s.preloadAIFoldersPromise
    aiFolders := s.folders
    aiFolderMap := s.folderMap
    preloadAIFoldersPromise := s.preloadFoldersPromise }

/-- Whether a call returned. -/
def Completion.isReturned {α : Type} : Completion α → Bool
  | Completion.returned _ => true
  | Completion.threw _ => false
  | Completion.outOfFuel => false

/-! ## Search box (`ui.js`) -/

/-- The function `updateSearchStats`. -/
def updateSearchStats (d : Dom) (shown total : Nat) (query : String) : Dom :=
  match d.searchStats with
  | none => d
  | some _ =>
    if query = "" then
      let text := if total > 0 then toString total ++ " assets available" else ""
      { d with searchStats := some { text := text, active := false } }
    else if total = 0 then
      let text := "No results for \"" ++ query ++ "\""
      { d with searchStats := some { text := text, active := true } }
    else
      let text := "Showing " ++ toString shown ++ " of " ++ toString total ++
        " results for \"" ++ query ++ "\""
      { d with searchStats := some { text := text, active := true } }

/-- The function `clearSearch`. -/
def clearSearch (d : Dom) : Dom :=
  let d1 := match d.searchInput with
    | some _ => { d with searchInput := some "" }
    | none => d
  let d2 := match d1.clearSearchBtnHidden with
    | some _ => { d1 with clearSearchBtnHidden := some true }
    | none => d1
  updateSearchStats d2 0 0 ""

/-! ## Folder selection -/

/-- The statement that toggles `folder-item--active` on every `.folder-item`. -/
def highlight (items : List FolderItem) (targetId : String) : List FolderItem :=
  items.map fun item => { item with active := decide (item.folderId = some targetId) }

/-- The part of `selectFolder` and `selectAIFolder` between the guard and the
breadcrumb branch that is the same in both but for the log text, the
preference setter and the extra reset of `aiVisibleCount`. -/
def selectCommon (ai : Bool) (preferences : Bool) (w : World) (targetId : String) : World :=
  let w1 := { w with state := { w.state with selectedFolderId := Val.str targetId, isWelcome := false } }
  let w2 := { w1 with dom := { w1.dom with folderItems := highlight w1.dom.folderItems targetId } }
  let w3 := w2.emit
    (Event.log ((if ai then "Selected AI folder: " else "Selected PNG folder: ") ++ targetId))
  let w4 := if preferences then
      w3.emit (if ai then Event.setLastAIFolder targetId else Event.setLastFolder targetId)
    else w3
  let w5 := { w4 with state := resetPagination w4.state }
  let w6 := if ai then { w5 with state := { w5.state with aiVisibleCount := 20 } } else w5
  let w7 := { w6 with state := { w6.state with searchQuery := "" } }
  { w7 with dom := clearSearch w7.dom }

/-- The breadcrumb branch and the final call of `selectFolder` and
`selectAIFolder`, given the path builder of the collection. A call of a member
that is absent from `Views.UI` throws a `TypeError`. -/
def selectFinish (ui : UIModule) (build : State → Val → Option (List Item)) (w : World)
    (targetId : String) (callbacks fn : Ref) : Completion Unit × World :=
  if targetId = "all" ∨ targetId = "favorites" then
    let w1 := { w with state := { w.state with currentFolderPath := [] } }
    if ui.hideBreadcrumbs then
      (Completion.returned (), (w1.emit Event.hideBreadcrumbs).emit (Event.call fn callbacks))
    else (Completion.threw "TypeError", w1)
  else
    match build w.state (Val.str targetId) with
    | none => (Completion.outOfFuel, w)
    | some path =>
      let w1 := { w with state := { w.state with currentFolderPath := path } }
      if ui.renderBreadcrumbs then
        let w2 := w1.emit (Event.renderBreadcrumbs path callbacks fn)
        let pathIds := path.dropLast.map Item.id
        if ui.expandToFolder then
          (Completion.returned (),
            (w2.emit (Event.expandToFolder targetId pathIds)).emit (Event.call fn callbacks))
        else (Completion.threw "TypeError", w2)
      else (Completion.threw "TypeError", w1)

/-- The function `selectFolder`. `preferences` tells whether
`global.Views.Preferences` is set; `fuel` bounds the loop of `buildFolderPath`. -/
def selectFolder (ui : UIModule) (preferences : Bool) (fuel : Nat) (w : World) (folderId : Val)
    (callbacks updateAssetViewFn : Ref) : Completion Unit × World :=
  let targetId := folderId.toStr
  if w.state.selectedFolderId.toStr = targetId ∧ w.state.isWelcome = false then
    (Completion.returned (), w)
  else
    selectFinish ui (buildFolderPath fuel) (selectCommon false preferences w targetId) targetId
      callbacks updateAssetViewFn

/-- The function `selectAIFolder`. `preferences` tells whether
`global.Views.Preferences` is set; `fuel` bounds the loop of
`buildAIFolderPath`. -/
def selectAIFolder (ui : UIModule) (preferences : Bool) (fuel : Nat) (w : World) (folderId : Val)
    (callbacks updateAIAssetViewFn : Ref) : Completion Unit × World :=
  let targetId := folderId.toStr
  if w.state.selectedFolderId.toStr = targetId ∧ w.state.isWelcome = false then
    (Completion.returned (), w)
  else
    selectFinish ui (buildAIFolderPath fuel) (selectCommon true preferences w targetId) targetId
      callbacks updateAIAssetViewFn

/-! ## Asset grid (`ui.js`) -/

/-- The function `createAssetCard`. `getDisplayName` stands for
`Utils.getDisplayName`, which these files do not define. -/
def createAssetCard (getDisplayName : String → String) (asset : Asset) (onImport : Ref) : Card :=
  let displayName := getDisplayName (if asset.name ≠ "" then asset.name else asset.id)
  { alt := if displayName ≠ "" then displayName else "Asset thumbnail"
    src := match asset.thumbnail with
      | some t => if t ≠ "" then Thumb.url t else Thumb.placeholder
      | none => Thumb.placeholder
    title := if displayName ≠ "" then displayName else "Untitled asset"
    tooltip := displayName
    asset := asset
    onImport := onImport
    animationDelay := none }

/-- The function `renderAssets`. An omitted `searchQuery` is the empty
string. -/
def renderAssets (getDisplayName : String → String) (w : World) (assets : List Asset)
    (selectedFolderId : Val) (onImport : Ref) (searchQuery : String) : World :=
  let w1 := { w with dom := { w.dom with grid := [] } }
  if assets.length = 0 then
    let icon := if searchQuery ≠ "" then EmptyIcon.search else EmptyIcon.folder
    let text :=
      if searchQuery ≠ "" then "No assets found for \"" ++ searchQuery ++ "\""
      else if selectedFolderId = Val.str "all" then "No assets available."
      else "No assets in this folder."
    let hint := if searchQuery ≠ "" then some "Try a different search term" else none
    let empty : EmptyState := { icon := icon, text := text, hint := hint }
    { w1 with dom := { w1.dom with grid := w1.dom.grid ++ [GridNode.empty empty] } }
  else
    let fragment := assets.mapIdx fun index asset =>
      let card := createAssetCard getDisplayName asset onImport
      let delay := min (index * 30) 500
      GridNode.card { card with animationDelay := some delay }
    let w2 := { w1 with dom := { w1.dom with grid := w1.dom.grid ++ fragment } }
    w2.emit (Event.log ("Rendered " ++ toString assets.length ++ " assets."))

/-- The `animationDelay` in milliseconds of a grid child that is a card with a
delay set. -/
def GridNode.delay : GridNode → Option Nat
  | GridNode.card c => c.animationDelay
  | _ => none

/-- The asset shown by a grid child that is a card. -/
def GridNode.asset : GridNode → Option Asset
  | GridNode.card c => some c.asset
  | _ => none

/-! ## Examples used in the theorems -/

/-- The root folder of the example chain. -/
def folderA : Folder := { id := "A", name := "Root", parentId := Val.null }

/-- The middle folder of the example chain. -/
def folderB : Folder := { id := "B", name := "Middle", parentId := Val.str "A" }

/-- The leaf folder of the example chain. -/
def folderC : Folder := { id := "C", name := "Leaf", parentId := Val.str "B" }

/-- A state whose two folder collections both hold the chain `A <- B <- C`. -/
def stateABC : State :=
  { State.initial with
    folders := some [folderA, folderB, folderC]
    folderMap := buildMap [folderA, folderB, folderC]
    aiFolders := some [folderA, folderB, folderC]
    aiFolderMap := buildMap [folderA, folderB, folderC] }

/-- The first of two folders that share the id `x`. -/
def dupFirst : Folder := { id := "x", name := "First", parentId := Val.null }

/-- The second of two folders that share the id `x`. -/
def dupSecond : Folder := { id := "x", name := "Second", parentId := Val.null }

/-- A folder that is its own parent. -/
def folderSelf : Folder := { id := "S", name := "Self", parentId := Val.str "S" }

/-- The first of two folders that are each other's parent. -/
def folderP : Folder := { id := "P", name := "Ping", parentId := Val.str "Q" }

/-- The second of two folders that are each other's parent. -/
def folderQ : Folder := { id := "Q", name := "Pong", parentId := Val.str "P" }

/-- A folder whose parent `Z` is not in the collection. -/
def folderOrphan : Folder := { id := "O", name := "Orphan", parentId := Val.str "Z" }

/-- A child of the orphan folder. -/
def folderLeaf : Folder := { id := "L", name := "Leaf", parentId := Val.str "O" }

/-- A folder whose `parentId` is the name of a member of `Object.prototype`. -/
def folderT : Folder := { id := "T", name := "Top", parentId := Val.str "toString" }

/-- A folder whose id is `__proto__`. -/
def folderProto : Folder := { id := "__proto__", name := "Proto", parentId := Val.null }

/-- A state whose two collections hold the given folders. -/
def stateOf (folders : List Folder) : State :=
  { State.initial with
    folders := some folders
    folderMap := buildMap folders
    aiFolders := some folders
    aiFolderMap := buildMap folders }

/-- A DOM with an empty grid, no sidebar items and all search elements. -/
def Dom.blank : Dom :=
  { grid := [], folderItems := [], searchInput := some "", clearSearchBtnHidden := some true,
    searchStats := some { text := "", active := false } }

/-- The initial state over the blank DOM, with no call made yet. -/
def World.initial : World :=
  { state := State.initial, dom := Dom.blank, trace := [] }

/-- The initial world with a folder preload promise that settles as given. -/
def World.withPreload (preload : Settled FolderList) : World :=
  { World.initial with
    state := { State.initial with
      preloadFoldersPromise := some preload
      preloadAIFoldersPromise := some preload } }

/-- A world in which the folder `id` is selected and the welcome screen is
gone, with the chain `A <- B <- C` loaded and `path` as current breadcrumb
path. -/
def World.selected (id : Val) (path : List Folder) : World :=
  { World.initial with
    state := { stateABC with
      selectedFolderId := id
      isWelcome := false
      currentFolderPath := path.map Item.folder } }

/-! ## Theorems -/

/-! ### Path reconstruction -/

theorem lookupFolder_null (m : FolderMap) : lookupFolder m Val.null = none := by
  simp [lookupFolder, Val.truthy]

theorem pathLoop_stop (fuel : Nat) (m : FolderMap) (currentId : Val) (path : List Item)
    (h : lookupFolder m currentId = none) : pathLoop fuel m currentId path = some path := by
  cases fuel <;> simp [pathLoop, h]

theorem pathLoop_step (fuel : Nat) (m : FolderMap) (currentId : Val) (path : List Item)
    (folder : Item) (h : lookupFolder m currentId = some folder) :
    pathLoop (fuel + 1) m currentId path = pathLoop fuel m folder.parentId (folder :: path) := by
  simp [pathLoop, h]

/-- Walking up from `target`: if the values met are `f`, then the members of
`u` in turn, and the loop condition fails at the parent of the last of them,
the loop returns them in the opposite order in front of the path it started
with. -/
theorem pathLoop_up_stop (m : FolderMap) :
    ∀ (u : List Item) (f : Item) (target : Val) (acc : List Item) (fuel : Nat),
      lookupFolder m target = some f →
      List.Chain (fun b a => lookupFolder m b.parentId = some a) f u →
      lookupFolder m ((f :: u).getLast (List.cons_ne_nil f u)).parentId = none →
      u.length + 1 ≤ fuel →
      pathLoop fuel m target acc = some ((f :: u).reverse ++ acc) := by
  intro u
  induction u with
  | nil =>
    intro f target acc fuel hf _ hlast hfuel
    obtain ⟨n, rfl⟩ : ∃ n, fuel = n + 1 := ⟨fuel - 1, by omega⟩
    rw [pathLoop_step n m target acc f hf]
    simp only [List.getLast_singleton] at hlast
    rw [pathLoop_stop n m f.parentId _ hlast]
    simp
  | cons g u ih =>
    intro f target acc fuel hf hchain hlast hfuel
    obtain ⟨n, rfl⟩ : ∃ n, fuel = n + 1 := ⟨fuel - 1, by omega⟩
    rw [pathLoop_step n m target acc f hf]
    rw [List.chain_cons] at hchain
    have hlast2 :
        lookupFolder m ((g :: u).getLast (List.cons_ne_nil g u)).parentId = none := by
      rw [List.getLast_cons (List.cons_ne_nil g u)] at hlast
      exact hlast
    have hlen : u.length + 1 ≤ n := by
      simp only [List.length_cons] at hfuel
      omega
    rw [ih g f.parentId (f :: acc) n hchain.1 hchain.2 hlast2 hlen]
    simp

/-- The loop returns the chain that ends at the value found for the target and
starts at the first value whose parent the loop condition rejects. -/
theorem pathLoop_brokenPath (m : FolderMap) (target : Val) (p : List Item) (top : Item)
    (fuel : Nat) (hlast : p.getLast? = lookupFolder m target) (hhead : p.head? = some top)
    (hchain : List.Chain' (fun a b => lookupFolder m b.parentId = some a) p)
    (htop : lookupFolder m top.parentId = none) (hfuel : p.length ≤ fuel) :
    pathLoop fuel m target [] = some p := by
  have hne : p ≠ [] := by
    intro h0
    simp [h0] at hhead
  have hrev : p.reverse ≠ [] := by simpa using hne
  obtain ⟨f, u, hfu⟩ := List.exists_cons_of_ne_nil hrev
  have hp : p = (f :: u).reverse := by
    rw [← hfu, List.reverse_reverse]
  subst hp
  have hf : lookupFolder m target = some f := by
    rw [← hlast]
    simp
  have hc : List.Chain (fun b a => lookupFolder m b.parentId = some a) f u :=
    List.chain'_reverse.mp hchain
  have hl : lookupFolder m ((f :: u).getLast (List.cons_ne_nil f u)).parentId = none := by
    have h1 : (f :: u).reverse.head? = some ((f :: u).getLast (List.cons_ne_nil f u)) := by
      rw [List.head?_reverse, List.getLast?_eq_getLast _ (List.cons_ne_nil f u)]
    rw [h1] at hhead
    have h2 : (f :: u).getLast (List.cons_ne_nil f u) = top := by simpa using hhead
    rw [h2]
    exact htop
  have hlen : u.length + 1 ≤ fuel := by
    simpa using hfuel
  have := pathLoop_up_stop m u f target [] fuel hf hc hl hlen
  simpa using this

/-- The loop returns the parent chain of the target, root first. -/
theorem pathLoop_rootPath (m : FolderMap) (target : Val) (p : List Folder) (fuel : Nat)
    (h : IsRootPath m target p) (hfuel : p.length ≤ fuel) :
    pathLoop fuel m target [] = some (p.map Item.folder) := by
  obtain ⟨hlast, hhead, hchain⟩ := h
  have hne : p ≠ [] := by
    intro h0
    simp [h0] at hhead
  obtain ⟨top, rest, hp⟩ := List.exists_cons_of_ne_nil hne
  have htop : top.parentId = Val.null := by
    rw [hp] at hhead
    simpa using hhead
  apply pathLoop_brokenPath m target (p.map Item.folder) (Item.folder top) fuel
  · rw [← hlast, List.getLast?_map]
  · rw [hp]
    rfl
  · rw [List.chain'_map]
    exact hchain
  · show lookupFolder m top.parentId = none
    rw [htop]
    exact lookupFolder_null m
  · rw [List.length_map]
    exact hfuel

/-- C1: for a target whose parent chain `p` runs from a folder with a null
`parentId` down to the target, `buildFolderPath(target)` returns exactly the
folders of `p` (root first, target last) as soon as the loop is given one
iteration per folder of the chain, and `buildAIFolderPath` does the same over
`aiFolderMap`. -/
theorem buildFolderPath_root_to_target (s : State) (target : Val) (p : List Folder)
    (fuel : Nat) (hfuel : p.length ≤ fuel) :
    (IsRootPath s.folderMap target p →
      buildFolderPath fuel s target = some (p.map Item.folder)) ∧
    (IsRootPath s.aiFolderMap target p →
      buildAIFolderPath fuel s target = some (p.map Item.folder)) :=
  ⟨fun h => pathLoop_rootPath s.folderMap target p fuel h hfuel,
   fun h => pathLoop_rootPath s.aiFolderMap target p fuel h hfuel⟩

/-- C1, on the chain `A <- B <- C`: both path builders return `[A, B, C]` for
the target `"C"`. -/
theorem buildFolderPath_root_to_target_witness :
    IsRootPath stateABC.folderMap (Val.str "C") [folderA, folderB, folderC] ∧
    IsRootPath stateABC.aiFolderMap (Val.str "C") [folderA, folderB, folderC] ∧
    buildFolderPath 3 stateABC (Val.str "C") =
      some [Item.folder folderA, Item.folder folderB, Item.folder folderC] ∧
    buildAIFolderPath 3 stateABC (Val.str "C") =
      some [Item.folder folderA, Item.folder folderB, Item.folder folderC] :=
  have h1 : IsRootPath stateABC.folderMap (Val.str "C") [folderA, folderB, folderC] :=
    ⟨by decide, by decide,
      List.Chain'.cons (by decide) (List.Chain'.cons (by decide) (List.chain'_singleton _))⟩
  have h2 : IsRootPath stateABC.aiFolderMap (Val.str "C") [folderA, folderB, folderC] :=
    ⟨by decide, by decide,
      List.Chain'.cons (by decide) (List.Chain'.cons (by decide) (List.chain'_singleton _))⟩
  have h := buildFolderPath_root_to_target stateABC (Val.str "C") [folderA, folderB, folderC] 3
    (by decide)
  ⟨h1, h2, h.1 h1, h.2 h2⟩

/-! #### Broken chains -/

/-- A key that is neither an own key nor the name of a member of
`Object.prototype` reads as `undefined` on a map whose prototype was never
replaced. -/
theorem FolderMap.get_eq_none (m : FolderMap) (key : String) (hp : m.proto = none)
    (hk : key ∉ m.keys) (hb : key ∉ objectPrototypeMembers) : m.get key = none := by
  have hl : List.lookup key m.own = none := by
    rw [List.lookup_eq_none_iff]
    intro e he
    simp only [bne_iff_ne, ne_eq]
    intro hek
    apply hk
    rw [hek]
    exact List.mem_map_of_mem Prod.fst he
  simp [FolderMap.get, hl, hp, hb]

theorem lookupFolder_eq_none (m : FolderMap) (v : Val)
    (h : v.truthy = false ∨ m.get v.toStr = none) : lookupFolder m v = none := by
  unfold lookupFolder
  rcases h with h | h
  · simp [h]
  · simp [h]

/-- Where the loop condition does fail, `buildFolderPath` degrades silently.
For a target that is falsy or reads as `undefined` on `folderMap` it returns
the empty list, with any iteration budget. When `p` is a chain of folders that
ends at `folderMap[target]`, each the parent of the next, and the `parentId`
of its first folder `top` is falsy or reads as `undefined` on `folderMap`, it
returns `p`, which starts at `top` and ends at the target. `buildAIFolderPath`
does the same over `aiFolderMap`. -/
theorem buildFolderPath_broken_chain (s : State) (target : Val) (p : List Folder)
    (top : Folder) (fuel : Nat) :
    ((target.truthy = false ∨ s.folderMap.get target.toStr = none) →
      buildFolderPath fuel s target = some []) ∧
    (p.getLast?.map Item.folder = lookupFolder s.folderMap target → p.head? = some top →
      List.Chain' (fun a b => lookupFolder s.folderMap b.parentId = some (Item.folder a)) p →
      (top.parentId.truthy = false ∨ s.folderMap.get top.parentId.toStr = none) →
      p.length ≤ fuel → buildFolderPath fuel s target = some (p.map Item.folder)) ∧
    ((target.truthy = false ∨ s.aiFolderMap.get target.toStr = none) →
      buildAIFolderPath fuel s target = some []) ∧
    (p.getLast?.map Item.folder = lookupFolder s.aiFolderMap target → p.head? = some top →
      List.Chain' (fun a b => lookupFolder s.aiFolderMap b.parentId = some (Item.folder a)) p →
      (top.parentId.truthy = false ∨ s.aiFolderMap.get top.parentId.toStr = none) →
      p.length ≤ fuel → buildAIFolderPath fuel s target = some (p.map Item.folder)) := by
  have key : ∀ m : FolderMap,
      p.getLast?.map Item.folder = lookupFolder m target → p.head? = some top →
      List.Chain' (fun a b => lookupFolder m b.parentId = some (Item.folder a)) p →
      (top.parentId.truthy = false ∨ m.get top.parentId.toStr = none) →
      p.length ≤ fuel → pathLoop fuel m target [] = some (p.map Item.folder) := by
    intro m hlast hhead hchain htop hfuel
    apply pathLoop_brokenPath m target (p.map Item.folder) (Item.folder top) fuel
    · rw [← hlast, List.getLast?_map]
    · rw [List.head?_map, hhead]
      rfl
    · rw [List.chain'_map]
      exact hchain
    · exact lookupFolder_eq_none m _ htop
    · rw [List.length_map]
      exact hfuel
  refine ⟨?_, key s.folderMap, ?_, key s.aiFolderMap⟩
  · intro h
    exact pathLoop_stop fuel s.folderMap target [] (lookupFolder_eq_none _ _ h)
  · intro h
    exact pathLoop_stop fuel s.aiFolderMap target [] (lookupFolder_eq_none _ _ h)

/-- On the folders `O` (whose parent `Z` is missing) and `L` (child of `O`):
the unknown target `Z` and the falsy target `null` give the empty list, the
target `L` gives `[O, L]`. -/
theorem buildFolderPath_broken_chain_example :
    buildFolderPath 0 (stateOf [folderOrphan, folderLeaf]) (Val.str "Z") = some [] ∧
    buildFolderPath 0 (stateOf [folderOrphan, folderLeaf]) Val.null = some [] ∧
    buildFolderPath 2 (stateOf [folderOrphan, folderLeaf]) (Val.str "L") =
      some [Item.folder folderOrphan, Item.folder folderLeaf] ∧
    buildAIFolderPath 0 (stateOf [folderOrphan, folderLeaf]) (Val.str "Z") = some [] ∧
    buildAIFolderPath 2 (stateOf [folderOrphan, folderLeaf]) (Val.str "L") =
      some [Item.folder folderOrphan, Item.folder folderLeaf] :=
  ⟨(buildFolderPath_broken_chain (stateOf [folderOrphan, folderLeaf]) (Val.str "Z") []
      folderOrphan 0).1 (Or.inr (by decide)),
    (buildFolderPath_broken_chain (stateOf [folderOrphan, folderLeaf]) Val.null []
      folderOrphan 0).1 (Or.inl rfl),
    (buildFolderPath_broken_chain (stateOf [folderOrphan, folderLeaf]) (Val.str "L")
      [folderOrphan, folderLeaf] folderOrphan 2).2.1 (by decide) rfl
      (List.Chain'.cons (by decide) (List.chain'_singleton _)) (Or.inr (by decide))
      (by decide),
    (buildFolderPath_broken_chain (stateOf [folderOrphan, folderLeaf]) (Val.str "Z") []
      folderOrphan 0).2.2.1 (Or.inr (by decide)),
    (buildFolderPath_broken_chain (stateOf [folderOrphan, folderLeaf]) (Val.str "L")
      [folderOrphan, folderLeaf] folderOrphan 2).2.2.2 (by decide) rfl
      (List.Chain'.cons (by decide) (List.chain'_singleton _)) (Or.inr (by decide))
      (by decide)⟩

/-- C11, on the code: `folderMap` is a plain object, so a read under the name
of a member of `Object.prototype` finds that member. The target
`"constructor"` is not a key of the empty `folderMap`, yet `buildFolderPath`
returns a path of one element, the inherited function, where the claim says
the empty list; and for the folder `T`, whose `parentId` `"toString"` is not a
key, the walk does not stop at `T` but returns the inherited function in front
of `T`. `buildAIFolderPath` does the same. -/
theorem buildFolderPath_inherited_member :
    "constructor" ∉ State.initial.folderMap.keys ∧
    buildFolderPath 1 State.initial (Val.str "constructor") =
      some [Item.builtin "constructor"] ∧
    buildAIFolderPath 1 State.initial (Val.str "constructor") =
      some [Item.builtin "constructor"] ∧
    "toString" ∉ (stateOf [folderT]).folderMap.keys ∧
    buildFolderPath 2 (stateOf [folderT]) (Val.str "T") =
      some [Item.builtin "toString", Item.folder folderT] ∧
    buildAIFolderPath 2 (stateOf [folderT]) (Val.str "T") =
      some [Item.builtin "toString", Item.folder folderT] := by
  decide

/-! #### Cycles -/

theorem visitedKey_zero (m : FolderMap) (c : Val) (f : Item)
    (h : lookupFolder m c = some f) : visitedKey m c 0 = some c.toStr := by
  simp [visitedKey, h]

theorem visitedKey_succ (m : FolderMap) (c : Val) (f : Item) (n : Nat)
    (h : lookupFolder m c = some f) : visitedKey m c (n + 1) = visitedKey m f.parentId n := by
  simp [visitedKey, h]

theorem visitedKey_none (m : FolderMap) (c : Val) (n : Nat)
    (h : lookupFolder m c = none) : visitedKey m c n = none := by
  cases n <;> simp [visitedKey, h]

/-- A value on which the loop condition holds is found under its string. -/
theorem lookupFolder_str_toStr (m : FolderMap) (c : Val) (f : Item)
    (h : lookupFolder m c = some f) : lookupFolder m (Val.str c.toStr) = some f := by
  unfold lookupFolder at h ⊢
  split at h
  · rename_i ht
    have hne : (Val.str c.toStr).truthy = true := by
      cases c with
      | null => simp [Val.truthy] at ht
      | undefined => simp [Val.truthy] at ht
      | bool b =>
        cases b
        · simp [Val.truthy] at ht
        · simp [Val.truthy, Val.toStr]
      | str t => simpa [Val.truthy, Val.toStr] using ht
    rw [if_pos hne]
    exact h
  · exact Option.noConfusion h

/-- From a visited key on, the walk depends on that key alone. -/
theorem visitedKey_add (m : FolderMap) :
    ∀ (a : Nat) (c : Val) (k : String) (d : Nat),
      visitedKey m c a = some k → visitedKey m c (a + d) = visitedKey m (Val.str k) d := by
  intro a
  induction a with
  | zero =>
    intro c k d h
    rcases hl : lookupFolder m c with _ | f
    · rw [visitedKey_none m c 0 hl] at h
      exact Option.noConfusion h
    · rw [visitedKey_zero m c f hl] at h
      have hk : k = c.toStr := (Option.some.inj h).symm
      subst hk
      have hs := lookupFolder_str_toStr m c f hl
      rw [Nat.zero_add]
      cases d with
      | zero => rw [visitedKey_zero m c f hl, visitedKey_zero m _ f hs]; rfl
      | succ d => rw [visitedKey_succ m c f d hl, visitedKey_succ m _ f d hs]
  | succ a ih =>
    intro c k d h
    rcases hl : lookupFolder m c with _ | f
    · rw [visitedKey_none m c (a + 1) hl] at h
      exact Option.noConfusion h
    · rw [visitedKey_succ m c f a hl] at h
      have : a + 1 + d = (a + d) + 1 := by omega
      rw [this, visitedKey_succ m c f (a + d) hl]
      exact ih f.parentId k d h

/-- If the loop condition holds after `n + 1` iterations it held after `n`. -/
theorem visitedKey_isSome_of_succ (m : FolderMap) :
    ∀ (n : Nat) (c : Val), (visitedKey m c (n + 1)).isSome = true →
      (visitedKey m c n).isSome = true := by
  intro n
  induction n with
  | zero =>
    intro c h
    rcases hl : lookupFolder m c with _ | f
    · rw [visitedKey_none m c 1 hl] at h
      exact Bool.noConfusion h
    · rw [visitedKey_zero m c f hl]
      rfl
  | succ n ih =>
    intro c h
    rcases hl : lookupFolder m c with _ | f
    · rw [visitedKey_none m c (n + 1 + 1) hl] at h
      exact Bool.noConfusion h
    · rw [visitedKey_succ m c f (n + 1) hl] at h
      rw [visitedKey_succ m c f n hl]
      exact ih f.parentId h

theorem visitedKey_isSome_of_le (m : FolderMap) (c : Val) (n j : Nat) (hnj : n ≤ j)
    (h : (visitedKey m c j).isSome = true) : (visitedKey m c n).isSome = true := by
  induction j with
  | zero =>
    have : n = 0 := by omega
    subst this
    exact h
  | succ j ih =>
    rcases Nat.lt_or_ge n (j + 1) with hlt | hge
    · exact ih (by omega) (visitedKey_isSome_of_succ m j c h)
    · have : n = j + 1 := by omega
      subst this
      exact h

/-- A walk that looks up the same key in two different iterations never
ends. -/
theorem visitedKey_cycle (m : FolderMap) (c : Val) (i j : Nat) (k : String) (hij : i < j)
    (hi : visitedKey m c i = some k) (hj : visitedKey m c j = some k) :
    ∀ n, (visitedKey m c n).isSome = true := by
  have hper : ∀ d, visitedKey m c (i + d) = visitedKey m c (j + d) := by
    intro d
    rw [visitedKey_add m i c k d hi, visitedKey_add m j c k d hj]
  have hjs : (visitedKey m c j).isSome = true := by
    rw [hj]
    rfl
  intro n
  induction n using Nat.strong_induction_on with
  | _ n ih =>
    rcases Nat.lt_or_ge j n with hlt | hge
    · obtain ⟨d, hd⟩ : ∃ d, n = j + d := ⟨n - j, by omega⟩
      rw [hd, ← hper d]
      exact ih (i + d) (by omega)
    · exact visitedKey_isSome_of_le m c n j hge hjs

/-- While the loop condition holds after `fuel` iterations, a budget of `fuel`
iterations does not let the loop return. -/
theorem pathLoop_none_of_visited (m : FolderMap) :
    ∀ (fuel : Nat) (c : Val) (acc : List Item), (visitedKey m c fuel).isSome = true →
      pathLoop fuel m c acc = none := by
  intro fuel
  induction fuel with
  | zero =>
    intro c acc h
    rcases hl : lookupFolder m c with _ | f
    · rw [visitedKey_none m c 0 hl] at h
      exact Bool.noConfusion h
    · simp [pathLoop, hl]
  | succ fuel ih =>
    intro c acc h
    rcases hl : lookupFolder m c with _ | f
    · rw [visitedKey_none m c (fuel + 1) hl] at h
      exact Bool.noConfusion h
    · rw [visitedKey_succ m c f fuel hl] at h
      rw [pathLoop_step fuel m c acc f hl]
      exact ih f.parentId (f :: acc) h

/-- C12: `buildFolderPath` has no cycle guard. If the walk from `target` looks
up the same key `k` in two different iterations (after `i` and after `j`
completed iterations, `i < j`), then the loop condition holds after every
number `n` of iterations, and no iteration budget lets `buildFolderPath`
return a path. -/
theorem buildFolderPath_cycle_never_returns (s : State) (target : Val) (i j : Nat)
    (k : String) (hij : i < j) (hi : visitedKey s.folderMap target i = some k)
    (hj : visitedKey s.folderMap target j = some k) :
    (∀ n, (visitedKey s.folderMap target n).isSome = true) ∧
    (∀ fuel, buildFolderPath fuel s target = none) := by
  have hall := visitedKey_cycle s.folderMap target i j k hij hi hj
  exact ⟨hall, fun fuel => pathLoop_none_of_visited s.folderMap fuel target [] (hall fuel)⟩

/-- C12, on a folder that is its own parent and on two folders that are each
other's parent: the walk never ends. -/
theorem buildFolderPath_cycle_never_returns_witness :
    (∀ fuel, buildFolderPath fuel (stateOf [folderSelf]) (Val.str "S") = none) ∧
    (∀ fuel, buildFolderPath fuel (stateOf [folderP, folderQ]) (Val.str "P") = none) :=
  ⟨(buildFolderPath_cycle_never_returns (stateOf [folderSelf]) (Val.str "S") 0 1 "S"
      (by decide) (by decide) (by decide)).2,
    (buildFolderPath_cycle_never_returns (stateOf [folderP, folderQ]) (Val.str "P") 0 2 "P"
      (by decide) (by decide) (by decide)).2⟩

/-! #### Returned paths -/

theorem lookupFolder_get (m : FolderMap) (c : Val) (f : Item)
    (h : lookupFolder m c = some f) : FolderMap.get m c.toStr = some f := by
  unfold lookupFolder at h
  split at h
  · rcases hg : m.get c.toStr with _ | g
    · rw [hg] at h
      exact Option.noConfusion h
    · rw [hg] at h
      simp only [Option.filter] at h
      split at h
      · rw [Option.some.inj h]
      · exact Option.noConfusion h
  · exact Option.noConfusion h

/-- An own key reads as the folder stored under it. -/
theorem FolderMap.get_of_mem_keys (m : FolderMap) (k : String) (h : k ∈ m.keys) :
    ∃ f, m.get k = some (Item.folder f) ∧ (k, f) ∈ m.own := by
  obtain ⟨own, proto⟩ := m
  simp only [FolderMap.keys] at h
  simp only [FolderMap.get]
  induction own with
  | nil => simp at h
  | cons e rest ih =>
    obtain ⟨k0, v0⟩ := e
    by_cases hk : k = k0
    · subst hk
      exact ⟨v0, by simp [List.lookup], List.mem_cons_self _ _⟩
    · have hb : (k == k0) = false := by simpa using hk
      have hrest : k ∈ List.map Prod.fst rest := by
        simp only [List.map_cons, List.mem_cons] at h
        rcases h with h | h
        · exact absurd h hk
        · exact h
      obtain ⟨f, hf, hmem⟩ := ih hrest
      refine ⟨f, ?_, List.mem_cons_of_mem _ hmem⟩
      simp only [List.lookup, hb]
      exact hf

/-- When the loop returns, the values it put in front of the starting path
are the values it looked up, iteration by iteration, and the loop condition
fails right after the last of them. -/
theorem pathLoop_some_visited (m : FolderMap) :
    ∀ (fuel : Nat) (c : Val) (acc p : List Item), pathLoop fuel m c acc = some p →
      ∃ u : List Item, p = u.reverse ++ acc ∧ visitedKey m c u.length = none ∧
        ∀ i f, u[i]? = some f → ∃ k, visitedKey m c i = some k ∧ FolderMap.get m k = some f := by
  intro fuel
  induction fuel with
  | zero =>
    intro c acc p h
    rcases hl : lookupFolder m c with _ | f
    · rw [pathLoop_stop 0 m c acc hl] at h
      refine ⟨[], ?_, visitedKey_none m c 0 hl, ?_⟩
      · simpa using (Option.some.inj h).symm
      · intro i f hf
        simp at hf
    · simp [pathLoop, hl] at h
  | succ fuel ih =>
    intro c acc p h
    rcases hl : lookupFolder m c with _ | f
    · rw [pathLoop_stop (fuel + 1) m c acc hl] at h
      refine ⟨[], ?_, visitedKey_none m c 0 hl, ?_⟩
      · simpa using (Option.some.inj h).symm
      · intro i f hf
        simp at hf
    · rw [pathLoop_step fuel m c acc f hl] at h
      obtain ⟨u, hp, hnone, hvis⟩ := ih f.parentId (f :: acc) p h
      refine ⟨f :: u, ?_, ?_, ?_⟩
      · rw [hp]
        simp
      · rw [List.length_cons, visitedKey_succ m c f u.length hl]
        exact hnone
      · intro i g hg
        cases i with
        | zero =>
          have hfg : f = g := by simpa using hg
          subst hfg
          exact ⟨c.toStr, visitedKey_zero m c f hl, lookupFolder_get m c f hl⟩
        | succ i =>
          have hg1 : u[i]? = some g := by simpa using hg
          obtain ⟨k, hk, hget⟩ := hvis i g hg1
          exact ⟨k, by rw [visitedKey_succ m c f i hl]; exact hk, hget⟩

/-! ### Folder maps -/

theorem lookup_cons_self (k : String) (v : Folder) (rest : List (String × Folder)) :
    List.lookup k ((k, v) :: rest) = some v := by
  simp [List.lookup]

theorem lookup_cons_ne (k k0 : String) (v : Folder) (rest : List (String × Folder))
    (h : k ≠ k0) : List.lookup k ((k0, v) :: rest) = List.lookup k rest := by
  have hb : (k == k0) = false := by simpa using h
  simp [List.lookup, hb]

theorem lookup_isSome_iff (own : List (String × Folder)) (k : String) :
    (List.lookup k own).isSome = true ↔ k ∈ own.map Prod.fst := by
  induction own with
  | nil => simp
  | cons e rest ih =>
    obtain ⟨k0, v0⟩ := e
    by_cases hk : k = k0
    · subst hk
      simp [lookup_cons_self]
    · rw [lookup_cons_ne k k0 v0 rest hk, ih]
      simp [hk]

theorem mem_insertNew (own : List (String × Folder)) (key : String) (folder : Folder)
    (e : String × Folder) : e ∈ insertNew own key folder ↔ e ∈ own ∨ e = (key, folder) := by
  induction own with
  | nil => simp [insertNew]
  | cons e0 rest ih =>
    obtain ⟨k0, v0⟩ := e0
    by_cases hb : listedBefore key k0 = true
    · simp only [insertNew, hb, if_true, List.mem_cons]
      tauto
    · simp only [insertNew, hb, if_false, List.mem_cons, ih, Bool.false_eq_true]
      tauto

theorem length_insertNew (own : List (String × Folder)) (key : String) (folder : Folder) :
    (insertNew own key folder).length = own.length + 1 := by
  induction own with
  | nil => simp [insertNew]
  | cons e0 rest ih =>
    obtain ⟨k0, v0⟩ := e0
    by_cases hb : listedBefore key k0 = true
    · simp [insertNew, hb]
    · simp [insertNew, hb, ih]

theorem lookup_insertNew_self (own : List (String × Folder)) (key : String) (folder : Folder)
    (h : List.lookup key own = none) : List.lookup key (insertNew own key folder) = some folder := by
  induction own with
  | nil => simp [insertNew, List.lookup]
  | cons e0 rest ih =>
    obtain ⟨k0, v0⟩ := e0
    have hk : key ≠ k0 := by
      intro h0
      subst h0
      rw [lookup_cons_self] at h
      exact Option.noConfusion h
    rw [lookup_cons_ne key k0 v0 rest hk] at h
    by_cases hb : listedBefore key k0 = true
    · simp only [insertNew, hb, if_true]
      exact lookup_cons_self _ _ _
    · simp only [insertNew, hb, if_false, Bool.false_eq_true]
      rw [lookup_cons_ne key k0 v0 _ hk]
      exact ih h

theorem lookup_insertNew_ne (own : List (String × Folder)) (key : String) (folder : Folder)
    (k : String) (h : k ≠ key) :
    List.lookup k (insertNew own key folder) = List.lookup k own := by
  induction own with
  | nil =>
    simp only [insertNew]
    rw [lookup_cons_ne k key folder [] h]
  | cons e0 rest ih =>
    obtain ⟨k0, v0⟩ := e0
    by_cases hb : listedBefore key k0 = true
    · simp only [insertNew, hb, if_true]
      rw [lookup_cons_ne k key folder _ h]
    · simp only [insertNew, hb, if_false, Bool.false_eq_true]
      by_cases hk : k = k0
      · subst hk
        rw [lookup_cons_self, lookup_cons_self]
      · rw [lookup_cons_ne k k0 v0 _ hk, lookup_cons_ne k k0 v0 _ hk]
        exact ih

theorem lookup_replace_ne (own : List (String × Folder)) (key : String) (folder : Folder)
    (k : String) (h : k ≠ key) :
    List.lookup k (own.map fun e => if e.1 = key then (e.1, folder) else e) =
      List.lookup k own := by
  induction own with
  | nil => rfl
  | cons e0 rest ih =>
    obtain ⟨k0, v0⟩ := e0
    by_cases hk0 : k0 = key
    · subst hk0
      simp only [List.map_cons, if_true]
      rw [lookup_cons_ne k k0 folder _ h, lookup_cons_ne k k0 v0 _ h]
      exact ih
    · simp only [List.map_cons, hk0, if_false]
      by_cases hk : k = k0
      · subst hk
        rw [lookup_cons_self, lookup_cons_self]
      · rw [lookup_cons_ne k k0 v0 _ hk, lookup_cons_ne k k0 v0 _ hk]
        exact ih

theorem mem_replace (own : List (String × Folder)) (key : String) (folder : Folder)
    (e : String × Folder) (h : e ∈ own.map fun e => if e.1 = key then (e.1, folder) else e) :
    e ∈ own ∨ e = (key, folder) := by
  rw [List.mem_map] at h
  obtain ⟨e0, he0, heq⟩ := h
  by_cases hk : e0.1 = key
  · rw [if_pos hk] at heq
    right
    rw [← heq, hk]
  · rw [if_neg hk] at heq
    left
    rw [← heq]
    exact he0

theorem keys_replace (own : List (String × Folder)) (key : String) (folder : Folder) :
    (own.map fun e => if e.1 = key then (e.1, folder) else e).map Prod.fst =
      own.map Prod.fst := by
  rw [List.map_map]
  apply List.map_congr_left
  intro e _
  by_cases hk : e.1 = key <;> simp [hk]

theorem mem_setOwn (own : List (String × Folder)) (key : String) (folder : Folder)
    (e : String × Folder) (h : e ∈ setOwn own key folder) : e ∈ own ∨ e = (key, folder) := by
  unfold setOwn at h
  split at h
  · exact mem_replace own key folder e h
  · exact (mem_insertNew own key folder e).mp h

theorem mem_keys_setOwn (own : List (String × Folder)) (key : String) (folder : Folder)
    (k : String) :
    k ∈ (setOwn own key folder).map Prod.fst ↔ k ∈ own.map Prod.fst ∨ k = key := by
  unfold setOwn
  split
  · rename_i hs
    rw [keys_replace]
    constructor
    · exact Or.inl
    · rintro (h | h)
      · exact h
      · rw [h]
        exact (lookup_isSome_iff own key).mp hs
  · constructor
    · intro h
      rw [List.mem_map] at h
      obtain ⟨e, he, hek⟩ := h
      rcases (mem_insertNew own key folder e).mp he with h1 | h1
      · exact Or.inl (hek ▸ List.mem_map_of_mem Prod.fst h1)
      · right
        rw [← hek, h1]
    · rintro (h | h)
      · rw [List.mem_map] at h ⊢
        obtain ⟨e, he, hek⟩ := h
        exact ⟨e, (mem_insertNew own key folder e).mpr (Or.inl he), hek⟩
      · rw [h]
        exact List.mem_map_of_mem Prod.fst
          ((mem_insertNew own key folder (key, folder)).mpr (Or.inr rfl))

theorem lookup_setOwn_ne (own : List (String × Folder)) (key : String) (folder : Folder)
    (k : String) (h : k ≠ key) : List.lookup k (setOwn own key folder) = List.lookup k own := by
  unfold setOwn
  split
  · exact lookup_replace_ne own key folder k h
  · exact lookup_insertNew_ne own key folder k h

/-- A write under a key that is not an own key yet adds one entry, found under
that key. -/
theorem setOwn_new (own : List (String × Folder)) (key : String) (folder : Folder)
    (h : key ∉ own.map Prod.fst) :
    (setOwn own key folder).length = own.length + 1 ∧
    List.lookup key (setOwn own key folder) = some folder := by
  have hs : ¬ (List.lookup key own).isSome = true := fun h0 =>
    h ((lookup_isSome_iff own key).mp h0)
  have hn : List.lookup key own = none := by
    rcases hl : List.lookup key own with _ | v
    · rfl
    · rw [hl] at hs
      exact absurd rfl hs
  unfold setOwn
  rw [if_neg hs]
  exact ⟨length_insertNew own key folder, lookup_insertNew_self own key folder hn⟩

theorem FolderMap.mem_keys_set (m : FolderMap) (key : String) (folder : Folder) (k : String)
    (h : k ∈ (m.set key folder).keys) : k ∈ m.keys ∨ k = key := by
  unfold FolderMap.set at h
  split at h
  · exact Or.inl h
  · exact (mem_keys_setOwn m.own key folder k).mp h

/-- The keys left by the `forEach` loop are among the keys it started with and
the ids of the folders it went through. -/
theorem mem_keys_foldl_set (L : List Folder) :
    ∀ (acc : FolderMap) (k : String),
      k ∈ FolderMap.keys (L.foldl (fun m folder => m.set folder.id folder) acc) →
        k ∈ acc.keys ∨ ∃ f ∈ L, f.id = k := by
  induction L with
  | nil => intro acc k h; exact Or.inl h
  | cons g L ih =>
    intro acc k h
    rw [List.foldl_cons] at h
    rcases ih _ k h with h1 | ⟨f, hf, hfk⟩
    · rcases FolderMap.mem_keys_set acc g.id g k h1 with h2 | h2
      · exact Or.inl h2
      · exact Or.inr ⟨g, List.mem_cons_self g L, h2.symm⟩
    · exact Or.inr ⟨f, List.mem_cons_of_mem g hf, hfk⟩

/-- The `forEach` loop keeps every entry under the id of its folder. -/
theorem foldl_set_keyed (L : List Folder) :
    ∀ (acc : FolderMap), (∀ e ∈ acc.own, e.2.id = e.1) →
      ∀ e ∈ (L.foldl (fun m folder => m.set folder.id folder) acc).own, e.2.id = e.1 := by
  induction L with
  | nil => intro acc h; simpa using h
  | cons g L ih =>
    intro acc h
    rw [List.foldl_cons]
    apply ih
    intro e he
    unfold FolderMap.set at he
    split at he
    · exact h e he
    · rcases mem_setOwn acc.own g.id g e he with h1 | h1
      · exact h e h1
      · rw [h1]

theorem buildMap_keyed (L : List Folder) (k : String) (f : Folder)
    (h : (k, f) ∈ (buildMap L).own) : f.id = k :=
  foldl_set_keyed L FolderMap.empty (by simp [FolderMap.empty]) (k, f) h

/-- Over folders with pairwise distinct ids, none of them `__proto__` and none
a key yet, the `forEach` loop adds one entry per folder and leaves each folder
under its id; the prototype stays. -/
theorem foldl_set_distinct (L : List Folder) :
    ∀ (acc : FolderMap), (L.map Folder.id).Nodup → "__proto__" ∉ L.map Folder.id →
      (∀ f ∈ L, f.id ∉ acc.keys) →
      (L.foldl (fun m folder => m.set folder.id folder) acc).proto = acc.proto ∧
      (L.foldl (fun m folder => m.set folder.id folder) acc).own.length =
        acc.own.length + L.length ∧
      (∀ k, k ∈ (L.foldl (fun m folder => m.set folder.id folder) acc).keys ↔
        k ∈ acc.keys ∨ k ∈ L.map Folder.id) ∧
      (∀ k, k ∉ L.map Folder.id →
        List.lookup k (L.foldl (fun m folder => m.set folder.id folder) acc).own =
          List.lookup k acc.own) ∧
      (∀ f ∈ L,
        List.lookup f.id (L.foldl (fun m folder => m.set folder.id folder) acc).own =
          some f) := by
  induction L with
  | nil =>
    intro acc _ _ _
    simp
  | cons g L ih =>
    intro acc hnd hproto hnew
    rw [List.map_cons, List.nodup_cons] at hnd
    have hg : g.id ≠ "__proto__" := by
      intro h0
      apply hproto
      rw [List.map_cons, ← h0]
      exact List.mem_cons_self _ _
    have hproto2 : "__proto__" ∉ L.map Folder.id := by
      intro h0
      apply hproto
      rw [List.map_cons]
      exact List.mem_cons_of_mem _ h0
    have hgnew : g.id ∉ acc.own.map Prod.fst := hnew g (List.mem_cons_self g L)
    have hset : acc.set g.id g = { acc with own := setOwn acc.own g.id g } := by
      unfold FolderMap.set
      rw [if_neg hg]
    have hsn := setOwn_new acc.own g.id g hgnew
    have hnew2 : ∀ f ∈ L, f.id ∉ (acc.set g.id g).keys := by
      intro f hf hmem
      rw [hset] at hmem
      rcases (mem_keys_setOwn acc.own g.id g f.id).mp hmem with h1 | h1
      · exact hnew f (List.mem_cons_of_mem g hf) h1
      · exact hnd.1 (h1 ▸ List.mem_map_of_mem Folder.id hf)
    obtain ⟨i1, i2, i3, i4, i5⟩ := ih (acc.set g.id g) hnd.2 hproto2 hnew2
    rw [List.foldl_cons]
    refine ⟨?_, ?_, ?_, ?_, ?_⟩
    · rw [i1, hset]
    · rw [i2, hset, List.length_cons]
      simp only
      rw [hsn.1]
      omega
    · intro k
      rw [i3, hset, List.map_cons, List.mem_cons]
      simp only [FolderMap.keys]
      rw [mem_keys_setOwn]
      tauto
    · intro k hk
      rw [List.map_cons, List.mem_cons, not_or] at hk
      rw [i4 k hk.2, hset]
      exact lookup_setOwn_ne acc.own g.id g k hk.1
    · intro f hf
      rcases List.mem_cons.mp hf with h1 | h1
      · subst h1
        rw [i4 f.id hnd.1, hset]
        exact hsn.2
      · exact i5 f h1

/-- Over folders with pairwise distinct ids, none of them `__proto__`, the map
built by the `forEach` loop has one entry per folder, its keys are the ids,
and each id reads as its folder. -/
theorem buildMap_distinct (L : List Folder) (hd : (L.map Folder.id).Nodup)
    (hp : "__proto__" ∉ L.map Folder.id) :
    (∀ f ∈ L, (buildMap L).get f.id = some (Item.folder f)) ∧
    (∀ k, k ∈ (buildMap L).keys ↔ k ∈ L.map Folder.id) ∧
    (buildMap L).size = L.length := by
  obtain ⟨_, i2, i3, _, i5⟩ := foldl_set_distinct L FolderMap.empty hd hp
    (by simp [FolderMap.empty, FolderMap.keys])
  refine ⟨?_, ?_, ?_⟩
  · intro f hf
    have := i5 f hf
    unfold buildMap FolderMap.get
    rw [this]
  · intro k
    have := i3 k
    simpa [FolderMap.empty, FolderMap.keys, buildMap] using this
  · simpa [FolderMap.empty, FolderMap.size, buildMap] using i2

/-! #### Length of returned paths -/

/-- Whenever `buildFolderPath(target)` returns a path `p`, the values of `p`,
read from the target back to the root, are the values the loop looked up in
its iterations, the loop ran exactly `p.length` iterations, and no two
iterations looked up the same key. If every key it looked up is an own key of
`folderMap`, then `p.length` is at most the number of entries of `folderMap`,
and over a map built by `loadFolders` from a list `L` the elements of `p` have
pairwise distinct ids. -/
theorem buildFolderPath_visits_once (s : State) (target : Val) (fuel : Nat) (p : List Item)
    (h : buildFolderPath fuel s target = some p) :
    (∀ i f, p.reverse[i]? = some f →
      ∃ k, visitedKey s.folderMap target i = some k ∧ s.folderMap.get k = some f) ∧
    visitedKey s.folderMap target p.length = none ∧
    (∀ i j, i < j → j < p.length →
      visitedKey s.folderMap target i ≠ visitedKey s.folderMap target j) ∧
    ((∀ i k, visitedKey s.folderMap target i = some k → k ∈ s.folderMap.keys) →
      p.length ≤ s.folderMap.size ∧
      ∀ L, s.folderMap = buildMap L → (p.map Item.id).Nodup) := by
  obtain ⟨u, hp, hnone, hvis⟩ := pathLoop_some_visited s.folderMap fuel target [] p h
  have hu : u = p.reverse := by
    rw [hp]
    simp
  subst hu
  rw [List.length_reverse] at hnone
  have hkey : ∀ i, i < p.length →
      ∃ k f, visitedKey s.folderMap target i = some k ∧ s.folderMap.get k = some f ∧
        p.reverse[i]? = some f := by
    intro i hi
    have hi2 : i < p.reverse.length := by rw [List.length_reverse]; exact hi
    obtain ⟨k, hk, hget⟩ := hvis i _ (List.getElem?_eq_getElem hi2)
    exact ⟨k, _, hk, hget, List.getElem?_eq_getElem hi2⟩
  have hdist : ∀ i j, i < j → j < p.length →
      visitedKey s.folderMap target i ≠ visitedKey s.folderMap target j := by
    intro i j hij hj heq
    obtain ⟨k, _, hk, _, _⟩ := hkey i (by omega)
    have hall := visitedKey_cycle s.folderMap target i j k hij hk (by rw [← heq]; exact hk)
    have := hall p.length
    rw [hnone] at this
    exact Bool.noConfusion this
  refine ⟨hvis, hnone, hdist, ?_⟩
  intro hown
  have hinj : ∀ x ∈ List.range p.length, ∀ y ∈ List.range p.length,
      (visitedKey s.folderMap target x).getD "" = (visitedKey s.folderMap target y).getD "" →
        x = y := by
    intro x hx y hy hxy
    rw [List.mem_range] at hx hy
    obtain ⟨kx, _, hkx, _, _⟩ := hkey x hx
    obtain ⟨ky, _, hky, _, _⟩ := hkey y hy
    rw [hkx, hky] at hxy
    have hkk : kx = ky := by simpa using hxy
    rcases Nat.lt_trichotomy x y with hlt | heq | hgt
    · exact absurd (by rw [hkx, hky, hkk]) (hdist x y hlt hy)
    · exact heq
    · exact absurd (by rw [hkx, hky, hkk]) (hdist y x hgt hx)
  have hnd : ((List.range p.length).map
      fun i => (visitedKey s.folderMap target i).getD "").Nodup :=
    List.Nodup.map_on hinj (List.nodup_range p.length)
  have hsub : ((List.range p.length).map
      fun i => (visitedKey s.folderMap target i).getD "") ⊆ s.folderMap.keys := by
    intro k hk
    rw [List.mem_map] at hk
    obtain ⟨i, hi, hik⟩ := hk
    rw [List.mem_range] at hi
    obtain ⟨k1, f, hk1, _, _⟩ := hkey i hi
    rw [hk1] at hik
    have : k1 = k := by simpa using hik
    rw [← this]
    exact hown i k1 hk1
  constructor
  · have hle := (List.subperm_of_subset hnd hsub).length_le
    simpa [FolderMap.keys, FolderMap.size] using hle
  · intro L hL
    have hids : p.reverse.map Item.id =
        ((List.range p.length).map
          fun i => (visitedKey s.folderMap target i).getD "").map Val.str := by
      apply List.ext_getElem?
      intro n
      rcases Nat.lt_or_ge n p.length with hn | hn
      · obtain ⟨k, f, hk, hget, hf⟩ := hkey n hn
        obtain ⟨g, hg, hmem⟩ := FolderMap.get_of_mem_keys s.folderMap k (hown n k hk)
        rw [hget] at hg
        have hfg : f = Item.folder g := Option.some.inj hg
        rw [hL] at hmem
        have hid := buildMap_keyed L k g hmem
        rw [List.getElem?_map, List.getElem?_map, List.getElem?_map, hf,
          List.getElem?_range hn]
        simp [hk, hfg, Item.id, hid]
      · rw [List.getElem?_eq_none (by simpa using hn), List.getElem?_eq_none (by simpa using hn)]
    have hinjStr : Function.Injective Val.str := by
      intro a b hab
      exact Val.str.inj hab
    have : (p.reverse.map Item.id).Nodup := by
      rw [hids]
      exact hnd.map hinjStr
    rw [List.map_reverse, List.nodup_reverse] at this
    exact this

/-- On the chain `A <- B <- C` loaded by `loadFolders`: the path for `C` has
three folders, the map three entries, and the ids are distinct. -/
theorem buildFolderPath_visits_once_example :
    buildFolderPath 3 (loadFolders World.initial
      (Settled.resolved (some [folderA, folderB, folderC]))).2.state (Val.str "C") =
      some [Item.folder folderA, Item.folder folderB, Item.folder folderC] ∧
    ∀ i j, i < j → j < 3 →
      visitedKey (loadFolders World.initial
        (Settled.resolved (some [folderA, folderB, folderC]))).2.state.folderMap
        (Val.str "C") i ≠
      visitedKey (loadFolders World.initial
        (Settled.resolved (some [folderA, folderB, folderC]))).2.state.folderMap
        (Val.str "C") j :=
  have h := buildFolderPath_visits_once (loadFolders World.initial
    (Settled.resolved (some [folderA, folderB, folderC]))).2.state (Val.str "C") 3
    [Item.folder folderA, Item.folder folderB, Item.folder folderC] (by decide)
  ⟨by decide, h.2.2.1⟩

/-- C17, on the code: `folderMap` is a plain object, so the walk also finds
members inherited from `Object.prototype`, which are no entries of the map.
After `loadFolders` has loaded the single folder `T`, whose `parentId` is
`"toString"`, `folderMap` has one entry, yet `buildFolderPath("T")` returns a
path of two elements, the first of them the inherited function; and on the
empty `folderMap` of the initial state `buildFolderPath("valueOf")` returns a
path of one element. -/
theorem buildFolderPath_longer_than_map :
    (loadFolders World.initial (Settled.resolved (some [folderT]))).1 =
      Completion.returned [folderT] ∧
    (loadFolders World.initial (Settled.resolved (some [folderT]))).2.state.folderMap.size =
      1 ∧
    buildFolderPath 2 (loadFolders World.initial
      (Settled.resolved (some [folderT]))).2.state (Val.str "T") =
      some [Item.builtin "toString", Item.folder folderT] ∧
    State.initial.folderMap.size = 0 ∧
    buildFolderPath 1 State.initial (Val.str "valueOf") = some [Item.builtin "valueOf"] := by
  decide

/-! ### Folder loading -/

/-- What `loadFolders` leaves in the state when it returns a list. -/
theorem loadFolders_returned (w : World) (fetch : Settled FolderList) (L : List Folder)
    (h : (loadFolders w fetch).1 = Completion.returned L) :
    (loadFolders w fetch).2.state.folders = some L ∧
    (loadFolders w fetch).2.state.folderMap = buildMap L := by
  unfold loadFolders at h ⊢
  rcases hp : w.state.preloadFoldersPromise with _ | (v | e)
  · rcases fetch with (_ | L2) | e2 <;> simp_all [World.emit]
  · rcases v with _ | L1
    · rcases fetch with (_ | L2) | e2 <;> simp_all [World.emit]
    · simp_all [World.emit]
  · simp_all [World.emit]

/-- What `loadAIFolders` leaves in the state when it returns a list. -/
theorem loadAIFolders_returned (w : World) (fetch : Settled FolderList) (L : List Folder)
    (h : (loadAIFolders w fetch).1 = Completion.returned L) :
    (loadAIFolders w fetch).2.state.aiFolders = some L ∧
    (loadAIFolders w fetch).2.state.aiFolderMap = buildMap L := by
  unfold loadAIFolders at h ⊢
  rcases hp : w.state.preloadAIFoldersPromise with _ | (v | e)
  · rcases fetch with (_ | L2) | e2 <;> simp_all [World.emit]
  · rcases v with _ | L1
    · rcases fetch with (_ | L2) | e2 <;> simp_all [World.emit]
    · simp_all [World.emit]
  · simp_all [World.emit]

/-- C2 as stated fails when two returned folders share an id: the later one
takes the entry of the earlier one, so the map has one entry for two folders
and `folderMap["x"]` is not the first folder. It also fails for the id
`__proto__`: the write replaces the prototype of the map and adds no entry,
so the map has one entry for the two folders `__proto__` and `A`. -/
theorem loadFolders_duplicate_ids_counterexample :
    (loadFolders World.initial (Settled.resolved (some [dupFirst, dupSecond]))).1 =
      Completion.returned [dupFirst, dupSecond] ∧
    FolderMap.get
      (loadFolders World.initial (Settled.resolved (some [dupFirst, dupSecond]))).2.state.folderMap
      dupFirst.id ≠ some (Item.folder dupFirst) ∧
    (loadFolders World.initial
      (Settled.resolved (some [dupFirst, dupSecond]))).2.state.folderMap.size ≠
      [dupFirst, dupSecond].length ∧
    (loadFolders World.initial (Settled.resolved (some [folderProto, folderA]))).1 =
      Completion.returned [folderProto, folderA] ∧
    (loadFolders World.initial
      (Settled.resolved (some [folderProto, folderA]))).2.state.folderMap.size ≠
      [folderProto, folderA].length := by
  decide

/-- C2, amended: when `loadFolders` returns a list of folders with pairwise
distinct ids, none of them `__proto__`, `folderMap[f.id]` is `f` for every
returned folder `f`, the keys of `folderMap` are exactly the returned ids, and
`folderMap` has as many entries as folders were returned. -/
theorem loadFolders_one_entry_per_folder (w : World) (fetch : Settled FolderList)
    (L : List Folder) (h : (loadFolders w fetch).1 = Completion.returned L)
    (hd : (L.map Folder.id).Nodup) (hp : "__proto__" ∉ L.map Folder.id) :
    (∀ f ∈ L, (loadFolders w fetch).2.state.folderMap.get f.id = some (Item.folder f)) ∧
    (∀ k, k ∈ (loadFolders w fetch).2.state.folderMap.keys ↔ k ∈ L.map Folder.id) ∧
    (loadFolders w fetch).2.state.folderMap.size = L.length := by
  rw [(loadFolders_returned w fetch L h).2]
  exact buildMap_distinct L hd hp

/-- C2, amended, on the three folders `A`, `B`, `C` fetched into the initial
state. -/
theorem loadFolders_one_entry_per_folder_witness :
    (∀ f ∈ [folderA, folderB, folderC],
      (loadFolders World.initial
        (Settled.resolved (some [folderA, folderB, folderC]))).2.state.folderMap.get f.id =
        some (Item.folder f)) ∧
    (∀ k, k ∈ (loadFolders World.initial
      (Settled.resolved (some [folderA, folderB, folderC]))).2.state.folderMap.keys ↔
      k ∈ [folderA, folderB, folderC].map Folder.id) ∧
    (loadFolders World.initial
      (Settled.resolved (some [folderA, folderB, folderC]))).2.state.folderMap.size =
      [folderA, folderB, folderC].length :=
  loadFolders_one_entry_per_folder World.initial
    (Settled.resolved (some [folderA, folderB, folderC])) [folderA, folderB, folderC]
    (by decide) (by decide) (by decide)

/-- C5 as stated fails for an empty list: an empty array is truthy, so a
preload that resolves to `[]` is stored and returned, `API.fetchFolders` (which
would have given `[A]`) is not called; the same for `loadAIFolders`. -/
theorem load_empty_preload_counterexample :
    (loadFolders (World.withPreload (Settled.resolved (some [])))
      (Settled.resolved (some [folderA]))).1 = Completion.returned [] ∧
    (loadFolders (World.withPreload (Settled.resolved (some [])))
      (Settled.resolved (some [folderA]))).2.state.folders = some [] ∧
    Event.fetchFolders ∉ (loadFolders (World.withPreload (Settled.resolved (some [])))
      (Settled.resolved (some [folderA]))).2.trace ∧
    (loadAIFolders (World.withPreload (Settled.resolved (some [])))
      (Settled.resolved (some [folderA]))).1 = Completion.returned [] ∧
    (loadAIFolders (World.withPreload (Settled.resolved (some [])))
      (Settled.resolved (some [folderA]))).2.state.aiFolders = some [] ∧
    Event.fetchAIFolders ∉ (loadAIFolders (World.withPreload (Settled.resolved (some [])))
      (Settled.resolved (some [folderA]))).2.trace := by
  decide

/-- C5, amended: when the preload promise is set and resolves to a falsy
value, `loadFolders` clears the promise, calls `API.fetchFolders` once and,
when that fetch yields the list `L`, stores and returns `L`; `loadAIFolders`
does the same with `preloadAIFoldersPromise` and `API.fetchAIFolders`. -/
theorem load_falsy_preload_fetches (w : World) (L : List Folder) :
    (w.state.preloadFoldersPromise = some (Settled.resolved none) →
      (loadFolders w (Settled.resolved (some L))).1 = Completion.returned L ∧
      (loadFolders w (Settled.resolved (some L))).2.state.folders = some L ∧
      (loadFolders w (Settled.resolved (some L))).2.state.folderMap = buildMap L ∧
      (loadFolders w (Settled.resolved (some L))).2.state.preloadFoldersPromise = none ∧
      (loadFolders w (Settled.resolved (some L))).2.trace =
        w.trace ++ [Event.log "Using preloaded folders...",
          Event.log "Preloaded folders unavailable, fetching fresh...",
          Event.fetchFolders,
          Event.log ("Loaded " ++ toString L.length ++ " PNG folders into state.")]) ∧
    (w.state.preloadAIFoldersPromise = some (Settled.resolved none) →
      (loadAIFolders w (Settled.resolved (some L))).1 = Completion.returned L ∧
      (loadAIFolders w (Settled.resolved (some L))).2.state.aiFolders = some L ∧
      (loadAIFolders w (Settled.resolved (some L))).2.state.aiFolderMap = buildMap L ∧
      (loadAIFolders w (Settled.resolved (some L))).2.state.preloadAIFoldersPromise = none ∧
      (loadAIFolders w (Settled.resolved (some L))).2.trace =
        w.trace ++ [Event.log "Using preloaded AI folders...",
          Event.log "Preloaded AI folders unavailable, fetching fresh...",
          Event.fetchAIFolders,
          Event.log ("Loaded " ++ toString L.length ++ " AI folders into state.")]) := by
  constructor
  · intro hp
    simp [loadFolders, hp, World.emit]
  · intro ha
    simp [loadAIFolders, ha, World.emit]

/-- C5, amended, with a preload that resolves to a falsy value and a fetch
that gives `[A]`. -/
theorem load_falsy_preload_fetches_witness :
    (loadFolders (World.withPreload (Settled.resolved none))
      (Settled.resolved (some [folderA]))).1 = Completion.returned [folderA] ∧
    Event.fetchFolders ∈ (loadFolders (World.withPreload (Settled.resolved none))
      (Settled.resolved (some [folderA]))).2.trace ∧
    (loadAIFolders (World.withPreload (Settled.resolved none))
      (Settled.resolved (some [folderA]))).1 = Completion.returned [folderA] ∧
    Event.fetchAIFolders ∈ (loadAIFolders (World.withPreload (Settled.resolved none))
      (Settled.resolved (some [folderA]))).2.trace :=
  have h := load_falsy_preload_fetches (World.withPreload (Settled.resolved none)) [folderA]
  have h1 := h.1 rfl
  have h2 := h.2 rfl
  ⟨h1.1, by rw [h1.2.2.2.2]; simp, h2.1, by rw [h2.2.2.2.2]; simp⟩

/-- Where the fetch yields a list or rejects: with the preload promise set and
resolving to a list `L`, `loadFolders` stores and returns `L`, makes no call to
`API.fetchFolders` and leaves `preloadFoldersPromise` null, and a second call
in the state it leaves takes its list `L2` from `API.fetchFolders`; with no
preload promise set, the first call already takes its list from
`API.fetchFolders`, and rejects as that fetch does when the fetch rejects. -/
theorem loadFolders_preload_consumed_once (w : World) (L L2 : List Folder)
    (fetch : Settled FolderList) :
    (w.state.preloadFoldersPromise = some (Settled.resolved (some L)) →
      (loadFolders w fetch).1 = Completion.returned L ∧
      (loadFolders w fetch).2.state.folders = some L ∧
      (loadFolders w fetch).2.state.preloadFoldersPromise = none ∧
      (loadFolders w fetch).2.trace =
        w.trace ++ [Event.log "Using preloaded folders...",
          Event.log ("Loaded " ++ toString L.length ++ " PNG folders into state.")] ∧
      (loadFolders (loadFolders w fetch).2 (Settled.resolved (some L2))).1 =
        Completion.returned L2 ∧
      (loadFolders (loadFolders w fetch).2 (Settled.resolved (some L2))).2.state.folders =
        some L2 ∧
      (loadFolders (loadFolders w fetch).2 (Settled.resolved (some L2))).2.trace =
        (loadFolders w fetch).2.trace ++ [Event.fetchFolders,
          Event.log ("Loaded " ++ toString L2.length ++ " PNG folders into state.")]) ∧
    (w.state.preloadFoldersPromise = none →
      (loadFolders w (Settled.resolved (some L2))).1 = Completion.returned L2 ∧
      (loadFolders w (Settled.resolved (some L2))).2.state.folders = some L2 ∧
      (loadFolders w (Settled.resolved (some L2))).2.trace =
        w.trace ++ [Event.fetchFolders,
          Event.log ("Loaded " ++ toString L2.length ++ " PNG folders into state.")] ∧
      ∀ e, (loadFolders w (Settled.rejected e)).1 = Completion.threw e) := by
  constructor
  · intro hp
    simp [loadFolders, hp, World.emit]
  · intro hp
    simp [loadFolders, hp, World.emit]

/-- With a preload that resolves to `[A, B]` while a fetch would give `[C]`,
and with no preload. -/
theorem loadFolders_preload_consumed_once_example :
    (loadFolders (World.withPreload (Settled.resolved (some [folderA, folderB])))
      (Settled.resolved (some [folderC]))).1 = Completion.returned [folderA, folderB] ∧
    Event.fetchFolders ∉
      (loadFolders (World.withPreload (Settled.resolved (some [folderA, folderB])))
        (Settled.resolved (some [folderC]))).2.trace ∧
    (loadFolders
      (loadFolders (World.withPreload (Settled.resolved (some [folderA, folderB])))
        (Settled.resolved (some [folderC]))).2 (Settled.resolved (some [folderC]))).1 =
      Completion.returned [folderC] ∧
    (loadFolders World.initial (Settled.resolved (some [folderC]))).1 =
      Completion.returned [folderC] :=
  have h := (loadFolders_preload_consumed_once
    (World.withPreload (Settled.resolved (some [folderA, folderB]))) [folderA, folderB]
    [folderC] (Settled.resolved (some [folderC]))).1 rfl
  have h0 := (loadFolders_preload_consumed_once World.initial [] [folderC]
    (Settled.resolved (some [folderC]))).2 rfl
  ⟨h.1, by rw [h.2.2.2.1]; simp [World.withPreload, World.initial], h.2.2.2.2.1, h0.1⟩

/-- C6, on the code: when no preload promise is set and `API.fetchFolders`
resolves to a falsy value, `loadFolders` makes the fetch, stores the falsy
value in `state.folders`, empties `folderMap` and throws a `TypeError` at
`folders.forEach`, so the call rejects instead of giving the result of the
fetch; the same happens in the second call after a consumed preload. The
sibling `loadAIFolders` guards the same value with `folders || []` and
returns the empty list. -/
theorem loadFolders_falsy_fetch_throws :
    (loadFolders World.initial (Settled.resolved none)).1 = Completion.threw "TypeError" ∧
    (loadFolders World.initial (Settled.resolved none)).2.state.folders = none ∧
    (loadFolders World.initial (Settled.resolved none)).2.state.folderMap = FolderMap.empty ∧
    (loadFolders World.initial (Settled.resolved none)).2.trace = [Event.fetchFolders] ∧
    (loadFolders (World.withPreload (Settled.resolved (some [folderA])))
      (Settled.resolved none)).1 = Completion.returned [folderA] ∧
    (loadFolders
      (loadFolders (World.withPreload (Settled.resolved (some [folderA])))
        (Settled.resolved none)).2 (Settled.resolved none)).1 =
      Completion.threw "TypeError" ∧
    (loadAIFolders World.initial (Settled.resolved none)).1 = Completion.returned [] := by
  decide

/-- C7: after `loadFolders` returns the list `L`, `state.folders` is `L` and
every key of `state.folderMap` is the id of a folder of `L`; the stored list
and map depend on `L` alone, so two calls that return the same list from
different prior states leave the same `folders` and `folderMap`. The same
holds for `loadAIFolders` with `aiFolders` and `aiFolderMap`. -/
theorem load_replaces_map (w1 w2 : World) (fetch1 fetch2 : Settled FolderList)
    (L : List Folder) :
    ((loadFolders w1 fetch1).1 = Completion.returned L →
      (loadFolders w2 fetch2).1 = Completion.returned L →
      (loadFolders w1 fetch1).2.state.folders = some L ∧
      (∀ k ∈ (loadFolders w1 fetch1).2.state.folderMap.keys, ∃ f ∈ L, f.id = k) ∧
      (loadFolders w1 fetch1).2.state.folders = (loadFolders w2 fetch2).2.state.folders ∧
      (loadFolders w1 fetch1).2.state.folderMap = (loadFolders w2 fetch2).2.state.folderMap) ∧
    ((loadAIFolders w1 fetch1).1 = Completion.returned L →
      (loadAIFolders w2 fetch2).1 = Completion.returned L →
      (loadAIFolders w1 fetch1).2.state.aiFolders = some L ∧
      (∀ k ∈ (loadAIFolders w1 fetch1).2.state.aiFolderMap.keys, ∃ f ∈ L, f.id = k) ∧
      (loadAIFolders w1 fetch1).2.state.aiFolders =
        (loadAIFolders w2 fetch2).2.state.aiFolders ∧
      (loadAIFolders w1 fetch1).2.state.aiFolderMap =
        (loadAIFolders w2 fetch2).2.state.aiFolderMap) := by
  have hkeys : ∀ k ∈ FolderMap.keys (buildMap L), ∃ f ∈ L, f.id = k := by
    intro k hk
    have := mem_keys_foldl_set L FolderMap.empty k hk
    simpa [FolderMap.keys, FolderMap.empty] using this
  constructor
  · intro h1 h2
    have r1 := loadFolders_returned w1 fetch1 L h1
    have r2 := loadFolders_returned w2 fetch2 L h2
    rw [r1.1, r1.2, r2.1, r2.2]
    exact ⟨rfl, hkeys, rfl, rfl⟩
  · intro h1 h2
    have r1 := loadAIFolders_returned w1 fetch1 L h1
    have r2 := loadAIFolders_returned w2 fetch2 L h2
    rw [r1.1, r1.2, r2.1, r2.2]
    exact ⟨rfl, hkeys, rfl, rfl⟩

/-- C7, with the list `[B, C]` loaded once into the initial state and once
into a state that already holds the chain `A <- B <- C`. -/
theorem load_replaces_map_witness :
    (loadFolders World.initial (Settled.resolved (some [folderB, folderC]))).2.state.folderMap =
      (loadFolders (World.selected (Val.str "C") [])
        (Settled.resolved (some [folderB, folderC]))).2.state.folderMap ∧
    (loadAIFolders World.initial (Settled.resolved (some [folderB, folderC]))).2.state.aiFolderMap =
      (loadAIFolders (World.selected (Val.str "C") [])
        (Settled.resolved (some [folderB, folderC]))).2.state.aiFolderMap :=
  have h := load_replaces_map World.initial (World.selected (Val.str "C") [])
    (Settled.resolved (some [folderB, folderC])) (Settled.resolved (some [folderB, folderC]))
    [folderB, folderC]
  ⟨(h.1 (by decide) (by decide)).2.2.2, (h.2 (by decide) (by decide)).2.2.2⟩

/-! #### The two collections -/

/-- The state fields that `loadFolders` can write. -/
theorem loadFolders_frame (w : World) (fetch : Settled FolderList) :
    (loadFolders w fetch).2.state =
      { w.state with
        folders := (loadFolders w fetch).2.state.folders
        folderMap := (loadFolders w fetch).2.state.folderMap
        preloadFoldersPromise := (loadFolders w fetch).2.state.preloadFoldersPromise } := by
  rcases w with
    ⟨⟨_, _, _, _, _, _, _, _, _, _, _, _, _, _, _, _, _, _, _, _, _, _, _, _, _, _, _, _, _, _, _, _, _, pre⟩, dom, tr⟩
  unfold loadFolders
  rcases pre with _ | (v | e)
  · rcases fetch with (_ | L2) | e2 <;> simp [World.emit]
  · rcases v with _ | L1
    · rcases fetch with (_ | L2) | e2 <;> simp [World.emit]
    · simp [World.emit]
  · simp [World.emit]

/-- The state fields that `loadAIFolders` can write. -/
theorem loadAIFolders_frame (w : World) (fetch : Settled FolderList) :
    (loadAIFolders w fetch).2.state =
      { w.state with
        aiFolders := (loadAIFolders w fetch).2.state.aiFolders
        aiFolderMap := (loadAIFolders w fetch).2.state.aiFolderMap
        aiFoldersSynced := (loadAIFolders w fetch).2.state.aiFoldersSynced
        preloadAIFoldersPromise := (loadAIFolders w fetch).2.state.preloadAIFoldersPromise } := by
  rcases w with
    ⟨⟨_, _, _, _, _, _, _, _, _, _, _, _, _, _, _, _, _, _, _, _, pre, _, _, _, _, _, _, _, _, _, _, _, _, _⟩, dom, tr⟩
  unfold loadAIFolders
  rcases pre with _ | (v | e)
  · rcases fetch with (_ | L2) | e2 <;> simp [World.emit]
  · rcases v with _ | L1
    · rcases fetch with (_ | L2) | e2 <;> simp [World.emit]
    · simp [World.emit]
  · simp [World.emit]

/-- C13 as stated fails. When the fetch yields a falsy value `loadFolders`
stores that value and throws a `TypeError`, while `loadAIFolders` stores and
returns the empty list; and `loadAIFolders` writes `aiFoldersSynced`, a field
outside the renaming. -/
theorem load_falsy_fetch_counterexample :
    (loadFolders World.initial (Settled.resolved none)).1 = Completion.threw "TypeError" ∧
    (loadFolders World.initial (Settled.resolved none)).2.state.folders = none ∧
    (loadAIFolders World.initial (Settled.resolved none)).1 = Completion.returned [] ∧
    (loadAIFolders World.initial (Settled.resolved none)).2.state.aiFolders = some [] ∧
    (loadAIFolders World.initial (Settled.resolved (some [folderA]))).2.state.aiFoldersSynced ≠
      World.initial.state.aiFoldersSynced := by
  decide

/-- C13, amended: for every prior state, preload outcome and fetch outcome
other than a falsy fetch result, `loadAIFolders` run on the renamed state ends
as `loadFolders` does (same returned list or same error), leaves the renamed
stored list, map and preload promise of `loadFolders`, and sets
`aiFoldersSynced` when it returns; `loadFolders` writes no field but
`folders`, `folderMap` and `preloadFoldersPromise`, `loadAIFolders` no field
but `aiFolders`, `aiFolderMap`, `preloadAIFoldersPromise` and
`aiFoldersSynced`, and neither touches the DOM. -/
theorem load_corresponds (w : World) (fetch : Settled FolderList)
    (hf : fetch ≠ Settled.resolved none) :
    (loadAIFolders { w with state := w.state.swapCollections } fetch).1 =
      (loadFolders w fetch).1 ∧
    (loadAIFolders { w with state := w.state.swapCollections } fetch).2.state =
      { (loadFolders w fetch).2.state.swapCollections with
        aiFoldersSynced := ((loadFolders w fetch).1.isReturned || w.state.aiFoldersSynced) } ∧
    (loadFolders w fetch).2.state =
      { w.state with
        folders := (loadFolders w fetch).2.state.folders
        folderMap := (loadFolders w fetch).2.state.folderMap
        preloadFoldersPromise := (loadFolders w fetch).2.state.preloadFoldersPromise } ∧
    (loadAIFolders w fetch).2.state =
      { w.state with
        aiFolders := (loadAIFolders w fetch).2.state.aiFolders
        aiFolderMap := (loadAIFolders w fetch).2.state.aiFolderMap
        aiFoldersSynced := (loadAIFolders w fetch).2.state.aiFoldersSynced
        preloadAIFoldersPromise := (loadAIFolders w fetch).2.state.preloadAIFoldersPromise } ∧
    (loadFolders w fetch).2.dom = w.dom ∧
    (loadAIFolders w fetch).2.dom = w.dom := by
  refine ⟨?_, ?_, loadFolders_frame w fetch, loadAIFolders_frame w fetch, ?_, ?_⟩
  · unfold loadFolders loadAIFolders
    rcases hp : w.state.preloadFoldersPromise with _ | (v | e)
    · rcases fetch with (_ | L2) | e2 <;>
        simp_all [World.emit, State.swapCollections]
    · rcases v with _ | L1
      · rcases fetch with (_ | L2) | e2 <;>
          simp_all [World.emit, State.swapCollections]
      · simp [World.emit, State.swapCollections, hp]
    · simp [World.emit, State.swapCollections, hp]
  · unfold loadFolders loadAIFolders
    rcases hp : w.state.preloadFoldersPromise with _ | (v | e)
    · rcases fetch with (_ | L2) | e2 <;>
        simp_all [World.emit, State.swapCollections, Completion.isReturned]
    · rcases v with _ | L1
      · rcases fetch with (_ | L2) | e2 <;>
          simp_all [World.emit, State.swapCollections, Completion.isReturned]
      · simp [World.emit, State.swapCollections, Completion.isReturned, hp]
    · simp [World.emit, State.swapCollections, Completion.isReturned, hp]
  · unfold loadFolders
    rcases hp : w.state.preloadFoldersPromise with _ | (v | e)
    · rcases fetch with (_ | L2) | e2 <;> simp [World.emit]
    · rcases v with _ | L1
      · rcases fetch with (_ | L2) | e2 <;> simp [World.emit]
      · simp [World.emit]
    · simp [World.emit]
  · unfold loadAIFolders
    rcases hp : w.state.preloadAIFoldersPromise with _ | (v | e)
    · rcases fetch with (_ | L2) | e2 <;> simp [World.emit]
    · rcases v with _ | L1
      · rcases fetch with (_ | L2) | e2 <;> simp [World.emit]
      · simp [World.emit]
    · simp [World.emit]

/-- C13, amended, with a preload that resolves to a falsy value and a fetch
that gives `[A, B]`: both functions return `[A, B]`. -/
theorem load_corresponds_witness :
    (loadAIFolders
      { World.withPreload (Settled.resolved none) with
        state := (World.withPreload (Settled.resolved none)).state.swapCollections }
      (Settled.resolved (some [folderA, folderB]))).1 =
      (loadFolders (World.withPreload (Settled.resolved none))
        (Settled.resolved (some [folderA, folderB]))).1 ∧
    (loadFolders (World.withPreload (Settled.resolved none))
      (Settled.resolved (some [folderA, folderB]))).1 = Completion.returned [folderA, folderB] :=
  ⟨(load_corresponds (World.withPreload (Settled.resolved none))
      (Settled.resolved (some [folderA, folderB])) (by decide)).1, by decide⟩

/-- C14: the two folder collections are disjoint data. `loadFolders` writes no
state field but `folders`, `folderMap` and `preloadFoldersPromise`, so
`aiFolders`, `aiFolderMap` and `preloadAIFoldersPromise` are as before;
`loadAIFolders` leaves `folders`, `folderMap` and `preloadFoldersPromise` as
before. Hence `buildAIFolderPath` gives the same result before and after
`loadFolders`, and `buildFolderPath` the same before and after
`loadAIFolders`, for every target and iteration budget and however the load
ends. -/
theorem load_collections_disjoint (w : World) (fetch : Settled FolderList) (fuel : Nat)
    (folderId : Val) :
    (loadFolders w fetch).2.state =
      { w.state with
        folders := (loadFolders w fetch).2.state.folders
        folderMap := (loadFolders w fetch).2.state.folderMap
        preloadFoldersPromise := (loadFolders w fetch).2.state.preloadFoldersPromise } ∧
    (loadFolders w fetch).2.state.aiFolders = w.state.aiFolders ∧
    (loadFolders w fetch).2.state.aiFolderMap = w.state.aiFolderMap ∧
    (loadFolders w fetch).2.state.preloadAIFoldersPromise = w.state.preloadAIFoldersPromise ∧
    (loadAIFolders w fetch).2.state.folders = w.state.folders ∧
    (loadAIFolders w fetch).2.state.folderMap = w.state.folderMap ∧
    (loadAIFolders w fetch).2.state.preloadFoldersPromise = w.state.preloadFoldersPromise ∧
    buildAIFolderPath fuel (loadFolders w fetch).2.state folderId =
      buildAIFolderPath fuel w.state folderId ∧
    buildFolderPath fuel (loadAIFolders w fetch).2.state folderId =
      buildFolderPath fuel w.state folderId := by
  have h1 := loadFolders_frame w fetch
  have h2 := loadAIFolders_frame w fetch
  have a1 : (loadFolders w fetch).2.state.aiFolders = w.state.aiFolders := by rw [h1]
  have a2 : (loadFolders w fetch).2.state.aiFolderMap = w.state.aiFolderMap := by rw [h1]
  have a3 : (loadFolders w fetch).2.state.preloadAIFoldersPromise =
      w.state.preloadAIFoldersPromise := by rw [h1]
  have b1 : (loadAIFolders w fetch).2.state.folders = w.state.folders := by rw [h2]
  have b2 : (loadAIFolders w fetch).2.state.folderMap = w.state.folderMap := by rw [h2]
  have b3 : (loadAIFolders w fetch).2.state.preloadFoldersPromise =
      w.state.preloadFoldersPromise := by rw [h2]
  refine ⟨h1, a1, a2, a3, b1, b2, b3, ?_, ?_⟩
  · unfold buildAIFolderPath
    rw [a2]
  · unfold buildFolderPath
    rw [b2]

/-! ### Folder selection -/

/-- The breadcrumb branch writes no state field but `currentFolderPath`. -/
theorem selectFinish_state (ui : UIModule) (build : State → Val → Option (List Item))
    (w : World) (targetId : String) (callbacks fn : Ref) :
    (selectFinish ui build w targetId callbacks fn).2.state =
      { w.state with
        currentFolderPath :=
          (selectFinish ui build w targetId callbacks fn).2.state.currentFolderPath } := by
  unfold selectFinish
  split
  · split <;> rfl
  · split
    · rfl
    · split
      · split <;> rfl
      · rfl

/-- The state fields that the common part of a selection leaves behind. -/
theorem selectCommon_state (ai preferences : Bool) (w : World) (targetId : String) :
    (selectCommon ai preferences w targetId).state.selectedFolderId = Val.str targetId ∧
    (selectCommon ai preferences w targetId).state.isWelcome = false ∧
    (selectCommon ai preferences w targetId).state.pagination.page = 1 ∧
    (selectCommon ai preferences w targetId).state.visibleCount = 20 ∧
    (selectCommon ai preferences w targetId).state.searchQuery = "" ∧
    (ai = true → (selectCommon ai preferences w targetId).state.aiVisibleCount = 20) := by
  cases ai <;> cases preferences <;> simp [selectCommon, resetPagination, World.emit]

/-- C3: when the folder asked for is the selected one and the welcome screen
is not shown, `selectFolder` and `selectAIFolder` return at once and leave the
whole world as it was: no state field changes, no DOM node changes, and no
call is made to `Preferences`, to the log or to the caller-supplied
function. -/
theorem select_same_folder_noop (ui : UIModule) (preferences : Bool) (fuel : Nat) (w : World)
    (folderId : Val) (callbacks fn : Ref) (hw : w.state.isWelcome = false)
    (hs : folderId.toStr = w.state.selectedFolderId.toStr) :
    selectFolder ui preferences fuel w folderId callbacks fn = (Completion.returned (), w) ∧
    selectAIFolder ui preferences fuel w folderId callbacks fn = (Completion.returned (), w) := by
  simp [selectFolder, selectAIFolder, hw, hs]

/-- C3, with folder `C` selected and selected again. -/
theorem select_same_folder_noop_witness :
    selectFolder UIModule.extended true 3 (World.selected (Val.str "C") [folderA, folderB, folderC])
      (Val.str "C") 1 2 =
      (Completion.returned (), World.selected (Val.str "C") [folderA, folderB, folderC]) ∧
    selectAIFolder UIModule.extended true 3
      (World.selected (Val.str "C") [folderA, folderB, folderC]) (Val.str "C") 1 2 =
      (Completion.returned (), World.selected (Val.str "C") [folderA, folderB, folderC]) :=
  select_same_folder_noop UIModule.extended true 3
    (World.selected (Val.str "C") [folderA, folderB, folderC]) (Val.str "C") 1 2 rfl rfl

/-- C4 as stated fails when the pseudo-folder is already selected and the
welcome screen is gone: the guard returns first and the breadcrumb path that
was there stays. -/
theorem select_pseudo_folder_counterexample :
    (selectFolder UIModule.extended true 0 (World.selected (Val.str "all") [folderA])
      (Val.str "all") 1 2).2.state.currentFolderPath ≠ [] ∧
    (selectAIFolder UIModule.extended true 0 (World.selected (Val.str "favorites") [folderA])
      (Val.str "favorites") 1 2).2.state.currentFolderPath ≠ [] := by
  decide

/-- C4, amended: on a real transition to `"all"` or `"favorites"` the
breadcrumb path is empty after `selectFolder` and after `selectAIFolder`,
whatever the state was before. -/
theorem select_pseudo_folder_empty_path (ui : UIModule) (preferences : Bool) (fuel : Nat)
    (w : World) (folderId : Val) (callbacks fn : Ref)
    (hf : folderId = Val.str "all" ∨ folderId = Val.str "favorites")
    (hr : w.state.selectedFolderId.toStr ≠ folderId.toStr ∨ w.state.isWelcome = true) :
    (selectFolder ui preferences fuel w folderId callbacks fn).2.state.currentFolderPath = [] ∧
    (selectAIFolder ui preferences fuel w folderId callbacks fn).2.state.currentFolderPath = [] := by
  have hg : ¬ (w.state.selectedFolderId.toStr = folderId.toStr ∧ w.state.isWelcome = false) := by
    rintro ⟨h1, h2⟩
    rcases hr with h | h
    · exact h h1
    · rw [h2] at h
      exact Bool.noConfusion h
  have ht : folderId.toStr = "all" ∨ folderId.toStr = "favorites" := by
    rcases hf with h | h <;> simp [h, Val.toStr]
  unfold selectFolder selectAIFolder
  simp only [hg, if_false]
  unfold selectFinish
  simp only [ht, if_true]
  constructor <;> split <;> rfl

/-- C4, amended, from a state where folder `C` is selected. -/
theorem select_pseudo_folder_empty_path_witness :
    (selectFolder UIModule.extended true 0
      (World.selected (Val.str "C") [folderA, folderB, folderC])
      (Val.str "all") 1 2).2.state.currentFolderPath = [] ∧
    (selectAIFolder UIModule.extended true 0
      (World.selected (Val.str "C") [folderA, folderB, folderC])
      (Val.str "all") 1 2).2.state.currentFolderPath = [] :=
  select_pseudo_folder_empty_path UIModule.extended true 0
    (World.selected (Val.str "C") [folderA, folderB, folderC]) (Val.str "all") 1 2
    (Or.inl rfl) (Or.inl (by decide))

/-- C8: on a real transition (another id than the selected one, or the welcome
screen still shown) `selectFolder` leaves `selectedFolderId` equal to
`String(folderId)`, `isWelcome` false, `pagination.page` 1, `visibleCount` 20
and `searchQuery` empty, however the call ends; `selectAIFolder` does the same
and leaves `aiVisibleCount` 20. -/
theorem select_real_transition_resets (ui : UIModule) (preferences : Bool) (fuel : Nat)
    (w : World) (folderId : Val) (callbacks fn : Ref)
    (hr : w.state.selectedFolderId.toStr ≠ folderId.toStr ∨ w.state.isWelcome = true) :
    ((selectFolder ui preferences fuel w folderId callbacks fn).2.state.selectedFolderId =
        Val.str folderId.toStr ∧
      (selectFolder ui preferences fuel w folderId callbacks fn).2.state.isWelcome = false ∧
      (selectFolder ui preferences fuel w folderId callbacks fn).2.state.pagination.page = 1 ∧
      (selectFolder ui preferences fuel w folderId callbacks fn).2.state.visibleCount = 20 ∧
      (selectFolder ui preferences fuel w folderId callbacks fn).2.state.searchQuery = "") ∧
    ((selectAIFolder ui preferences fuel w folderId callbacks fn).2.state.selectedFolderId =
        Val.str folderId.toStr ∧
      (selectAIFolder ui preferences fuel w folderId callbacks fn).2.state.isWelcome = false ∧
      (selectAIFolder ui preferences fuel w folderId callbacks fn).2.state.pagination.page = 1 ∧
      (selectAIFolder ui preferences fuel w folderId callbacks fn).2.state.visibleCount = 20 ∧
      (selectAIFolder ui preferences fuel w folderId callbacks fn).2.state.searchQuery = "" ∧
      (selectAIFolder ui preferences fuel w folderId callbacks fn).2.state.aiVisibleCount = 20) := by
  have hg : ¬ (w.state.selectedFolderId.toStr = folderId.toStr ∧ w.state.isWelcome = false) := by
    rintro ⟨h1, h2⟩
    rcases hr with h | h
    · exact h h1
    · rw [h2] at h
      exact Bool.noConfusion h
  unfold selectFolder selectAIFolder
  simp only [hg, if_false]
  constructor
  · have hc := selectCommon_state false preferences w folderId.toStr
    rw [selectFinish_state]
    exact ⟨hc.1, hc.2.1, hc.2.2.1, hc.2.2.2.1, hc.2.2.2.2.1⟩
  · have hc := selectCommon_state true preferences w folderId.toStr
    rw [selectFinish_state]
    exact ⟨hc.1, hc.2.1, hc.2.2.1, hc.2.2.2.1, hc.2.2.2.2.1, hc.2.2.2.2.2 rfl⟩

/-- C8, for the first selection of folder `C` from the welcome screen. -/
theorem select_real_transition_resets_witness :
    ((selectFolder UIModule.uiJs true 3 World.initial (Val.str "C") 1 2).2.state.selectedFolderId =
        Val.str "C" ∧
      (selectFolder UIModule.uiJs true 3 World.initial (Val.str "C") 1 2).2.state.isWelcome =
        false ∧
      (selectFolder UIModule.uiJs true 3 World.initial (Val.str "C") 1 2).2.state.pagination.page =
        1 ∧
      (selectFolder UIModule.uiJs true 3 World.initial (Val.str "C") 1 2).2.state.visibleCount =
        20 ∧
      (selectFolder UIModule.uiJs true 3 World.initial (Val.str "C") 1 2).2.state.searchQuery =
        "") ∧
    ((selectAIFolder UIModule.uiJs true 3 World.initial (Val.str "C") 1 2).2.state.selectedFolderId =
        Val.str "C" ∧
      (selectAIFolder UIModule.uiJs true 3 World.initial (Val.str "C") 1 2).2.state.isWelcome =
        false ∧
      (selectAIFolder UIModule.uiJs true 3 World.initial (Val.str "C") 1 2).2.state.pagination.page =
        1 ∧
      (selectAIFolder UIModule.uiJs true 3 World.initial (Val.str "C") 1 2).2.state.visibleCount =
        20 ∧
      (selectAIFolder UIModule.uiJs true 3 World.initial (Val.str "C") 1 2).2.state.searchQuery =
        "" ∧
      (selectAIFolder UIModule.uiJs true 3 World.initial (Val.str "C") 1 2).2.state.aiVisibleCount =
        20) :=
  select_real_transition_resets UIModule.uiJs true 3 World.initial (Val.str "C") 1 2
    (Or.inr rfl)

/-- With the three breadcrumb members present on `Views.UI`, a real transition
returns and calls the caller-supplied function once, as the last call made. -/
theorem selectFinish_extended_calls_fn (build : State → Val → Option (List Item)) (w : World)
    (targetId : String) (callbacks fn : Ref) (path : List Item)
    (hb : build w.state (Val.str targetId) = some path) :
    (selectFinish UIModule.extended build w targetId callbacks fn).1 = Completion.returned () ∧
    ∃ added : List Event,
      (selectFinish UIModule.extended build w targetId callbacks fn).2.trace =
        w.trace ++ added ++ [Event.call fn callbacks] ∧
      ∀ f a, Event.call f a ∉ added := by
  unfold selectFinish
  split
  · exact ⟨rfl, [Event.hideBreadcrumbs], by simp [World.emit, UIModule.extended], by simp⟩
  · rw [hb]
    exact ⟨rfl, [Event.renderBreadcrumbs path callbacks fn,
      Event.expandToFolder targetId (path.dropLast.map Item.id)],
      by simp [World.emit, UIModule.extended], by simp⟩

/-- With `Views.UI` as `ui.js` defines it, the breadcrumb branch never returns
and makes no call at all, so the caller-supplied function is not called. -/
theorem selectFinish_uiJs_no_call (build : State → Val → Option (List Item)) (w : World)
    (targetId : String) (callbacks fn : Ref) :
    (selectFinish UIModule.uiJs build w targetId callbacks fn).1 ≠ Completion.returned () ∧
    (selectFinish UIModule.uiJs build w targetId callbacks fn).2.trace = w.trace := by
  unfold selectFinish
  split
  · simp [UIModule.uiJs]
  · split <;> simp [UIModule.uiJs]

/-- C9, on the code: with `Views.UI` as `ui.js` defines it, the first selection
of `"all"` and the first selection of the folder `C` both set the breadcrumb
path and then throw a `TypeError` at the call of the missing breadcrumb
member, so the caller-supplied function `2` is never called with the callbacks
`1`; `selectAIFolder` does the same. -/
theorem select_uiJs_throws_before_callback :
    (selectFolder UIModule.uiJs true 3 World.initial (Val.str "all") 1 2).1 =
      Completion.threw "TypeError" ∧
    (selectFolder UIModule.uiJs true 3 World.initial (Val.str "all") 1 2).2.state.currentFolderPath =
      [] ∧
    Event.call 2 1 ∉ (selectFolder UIModule.uiJs true 3 World.initial (Val.str "all") 1 2).2.trace ∧
    (selectFolder UIModule.uiJs true 3 (World.selected Val.null []) (Val.str "C") 1 2).1 =
      Completion.threw "TypeError" ∧
    (selectFolder UIModule.uiJs true 3 (World.selected Val.null [])
      (Val.str "C") 1 2).2.state.currentFolderPath =
      [Item.folder folderA, Item.folder folderB, Item.folder folderC] ∧
    Event.call 2 1 ∉
      (selectFolder UIModule.uiJs true 3 (World.selected Val.null []) (Val.str "C") 1 2).2.trace ∧
    (selectAIFolder UIModule.uiJs true 3 World.initial (Val.str "all") 1 2).1 =
      Completion.threw "TypeError" ∧
    Event.call 2 1 ∉
      (selectAIFolder UIModule.uiJs true 3 World.initial (Val.str "all") 1 2).2.trace ∧
    (selectAIFolder UIModule.uiJs true 3 (World.selected Val.null []) (Val.str "C") 1 2).1 =
      Completion.threw "TypeError" ∧
    Event.call 2 1 ∉
      (selectAIFolder UIModule.uiJs true 3 (World.selected Val.null []) (Val.str "C") 1 2).2.trace := by
  decide

/-! ### Asset grid -/

theorem noResults_ne_noAssets (q : String) :
    "No assets found for \"" ++ q ++ "\"" ≠ "No assets available." := by
  intro h
  have h1 := congrArg (fun t : String => t.data.take 11) h
  simp [String.data_append] at h1

theorem noResults_ne_emptyFolder (q : String) :
    "No assets found for \"" ++ q ++ "\"" ≠ "No assets in this folder." := by
  intro h
  have h1 := congrArg (fun t : String => t.data.take 11) h
  simp [String.data_append] at h1

/-- C10: for an empty assets list `renderAssets` leaves exactly one child in
the grid, the empty-state element, whatever the grid held before. With a
non-empty search query `q` its message is `No assets found for "q"` with the
hint `Try a different search term`; with an empty query and the folder `"all"`
it is `No assets available.`; with an empty query and any other folder it is
`No assets in this folder.`; the last two carry no hint. The three messages
are pairwise distinct, the grid holds no asset card, and neither the state nor
the list of collaborator calls changes. -/
theorem renderAssets_empty_state (getDisplayName : String → String) (w : World)
    (selectedFolderId : Val) (onImport : Ref) (q : String) :
    (q ≠ "" →
      (renderAssets getDisplayName w [] selectedFolderId onImport q).dom.grid =
        [GridNode.empty
          { icon := EmptyIcon.search
            text := "No assets found for \"" ++ q ++ "\""
            hint := some "Try a different search term" }]) ∧
    (q = "" → selectedFolderId = Val.str "all" →
      (renderAssets getDisplayName w [] selectedFolderId onImport q).dom.grid =
        [GridNode.empty
          { icon := EmptyIcon.folder, text := "No assets available.", hint := none }]) ∧
    (q = "" → selectedFolderId ≠ Val.str "all" →
      (renderAssets getDisplayName w [] selectedFolderId onImport q).dom.grid =
        [GridNode.empty
          { icon := EmptyIcon.folder, text := "No assets in this folder.", hint := none }]) ∧
    ("No assets found for \"" ++ q ++ "\"" ≠ "No assets available." ∧
      "No assets found for \"" ++ q ++ "\"" ≠ "No assets in this folder." ∧
      "No assets available." ≠ "No assets in this folder.") ∧
    (∀ c, GridNode.card c ∉
      (renderAssets getDisplayName w [] selectedFolderId onImport q).dom.grid) ∧
    (renderAssets getDisplayName w [] selectedFolderId onImport q).state = w.state ∧
    (renderAssets getDisplayName w [] selectedFolderId onImport q).trace = w.trace := by
  refine ⟨?_, ?_, ?_, ⟨noResults_ne_noAssets q, noResults_ne_emptyFolder q, by decide⟩, ?_, ?_, ?_⟩
  · intro hq
    simp [renderAssets, hq]
  · intro hq hs
    simp [renderAssets, hq, hs]
  · intro hq hs
    simp [renderAssets, hq, hs]
  · intro c
    simp [renderAssets]
  · simp [renderAssets]
  · simp [renderAssets]

/-- C10, for the query `cat` in the folder `"all"`, for no query in the folder
`"all"` and for no query in the folder `C`, over a grid that held a
skeleton. -/
theorem renderAssets_empty_state_witness :
    (renderAssets id { World.initial with dom := { Dom.blank with grid := [GridNode.skeleton] } }
      [] (Val.str "all") 3 "cat").dom.grid =
      [GridNode.empty
        { icon := EmptyIcon.search
          text := "No assets found for \"cat\""
          hint := some "Try a different search term" }] ∧
    (renderAssets id { World.initial with dom := { Dom.blank with grid := [GridNode.skeleton] } }
      [] (Val.str "all") 3 "").dom.grid =
      [GridNode.empty
        { icon := EmptyIcon.folder, text := "No assets available.", hint := none }] ∧
    (renderAssets id { World.initial with dom := { Dom.blank with grid := [GridNode.skeleton] } }
      [] (Val.str "C") 3 "").dom.grid =
      [GridNode.empty
        { icon := EmptyIcon.folder, text := "No assets in this folder.", hint := none }] :=
  ⟨(renderAssets_empty_state id
      { World.initial with dom := { Dom.blank with grid := [GridNode.skeleton] } }
      (Val.str "all") 3 "cat").1 (by decide),
    (renderAssets_empty_state id
      { World.initial with dom := { Dom.blank with grid := [GridNode.skeleton] } }
      (Val.str "all") 3 "").2.1 rfl rfl,
    (renderAssets_empty_state id
      { World.initial with dom := { Dom.blank with grid := [GridNode.skeleton] } }
      (Val.str "C") 3 "").2.2.1 rfl (by decide)⟩

/-- C16: for a non-empty assets list the grid holds exactly one child per
asset, the child at index `i` is the card of the asset at index `i`, and its
animation delay is `min (30 * i) 500` milliseconds: `30 * i` for `i ≤ 16`,
`500` for `i ≥ 17`, at most `500`, and not smaller than the delay of any
earlier card. -/
theorem renderAssets_cards (getDisplayName : String → String) (w : World)
    (assets : List Asset) (selectedFolderId : Val) (onImport : Ref) (q : String)
    (hne : assets ≠ []) :
    (renderAssets getDisplayName w assets selectedFolderId onImport q).dom.grid.length =
      assets.length ∧
    (∀ i (h : i < assets.length),
      (renderAssets getDisplayName w assets selectedFolderId onImport q).dom.grid[i]? =
        some (GridNode.card
          { createAssetCard getDisplayName (assets.get ⟨i, h⟩) onImport with
            animationDelay := some (min (30 * i) 500) })) ∧
    (∀ i, i < assets.length →
      ((renderAssets getDisplayName w assets selectedFolderId onImport q).dom.grid[i]?).bind
          GridNode.asset = assets[i]? ∧
      ((renderAssets getDisplayName w assets selectedFolderId onImport q).dom.grid[i]?).bind
          GridNode.delay = some (min (30 * i) 500) ∧
      (i ≤ 16 → min (30 * i) 500 = 30 * i) ∧
      (17 ≤ i → min (30 * i) 500 = 500) ∧
      min (30 * i) 500 ≤ 500 ∧
      ∀ j, j ≤ i → min (30 * j) 500 ≤ min (30 * i) 500) := by
  have hlen : ¬ assets.length = 0 := by
    intro h0
    exact hne (List.length_eq_zero.mp h0)
  have hgrid : (renderAssets getDisplayName w assets selectedFolderId onImport q).dom.grid =
      assets.mapIdx fun index asset =>
        GridNode.card
          { createAssetCard getDisplayName asset onImport with
            animationDelay := some (min (index * 30) 500) } := by
    simp [renderAssets, hlen, World.emit]
  have hget : ∀ i (h : i < assets.length),
      (renderAssets getDisplayName w assets selectedFolderId onImport q).dom.grid[i]? =
        some (GridNode.card
          { createAssetCard getDisplayName (assets.get ⟨i, h⟩) onImport with
            animationDelay := some (min (30 * i) 500) }) := by
    intro i h
    rw [hgrid, List.getElem?_mapIdx, List.getElem?_eq_getElem h, Nat.mul_comm i 30]
    rfl
  refine ⟨?_, hget, ?_⟩
  · rw [hgrid, List.length_mapIdx]
  · intro i h
    refine ⟨?_, ?_, ?_, ?_, ?_, ?_⟩
    · rw [hget i h, List.getElem?_eq_getElem h]
      rfl
    · rw [hget i h]
      rfl
    · intro hi
      omega
    · intro hi
      omega
    · omega
    · intro j hj
      omega

/-- C16, on twenty assets: twenty cards, the second delayed by 30 ms, the
seventeenth by 480 ms, the eighteenth and the last by 500 ms. -/
theorem renderAssets_cards_witness :
    (renderAssets id World.initial (List.replicate 20 { id := "a", name := "n", thumbnail := none })
      (Val.str "all") 3 "").dom.grid.length = 20 ∧
    ((renderAssets id World.initial
      (List.replicate 20 { id := "a", name := "n", thumbnail := none })
      (Val.str "all") 3 "").dom.grid[1]?).bind GridNode.delay = some 30 ∧
    ((renderAssets id World.initial
      (List.replicate 20 { id := "a", name := "n", thumbnail := none })
      (Val.str "all") 3 "").dom.grid[16]?).bind GridNode.delay = some 480 ∧
    ((renderAssets id World.initial
      (List.replicate 20 { id := "a", name := "n", thumbnail := none })
      (Val.str "all") 3 "").dom.grid[17]?).bind GridNode.delay = some 500 ∧
    ((renderAssets id World.initial
      (List.replicate 20 { id := "a", name := "n", thumbnail := none })
      (Val.str "all") 3 "").dom.grid[19]?).bind GridNode.delay = some 500 :=
  have h := renderAssets_cards id World.initial
    (List.replicate 20 { id := "a", name := "n", thumbnail := none }) (Val.str "all") 3 ""
    (by decide)
  ⟨h.1, (h.2.2 1 (by decide)).2.1, (h.2.2 16 (by decide)).2.1, (h.2.2 17 (by decide)).2.1,
    (h.2.2 19 (by decide)).2.1⟩

/-! ### Fetch session counter -/

theorem roundToDouble_exact (x : Int) (h : x.natAbs ≤ 2 ^ 53) : roundToDouble x = x := by
  unfold roundToDouble
  exact if_pos h

theorem incrementFetchSession_exact (s : State) (hlo : -(2 ^ 53) < s.fetchSession)
    (hhi : s.fetchSession < 2 ^ 53) :
    incrementFetchSession s =
      (s.fetchSession + 1, { s with fetchSession := s.fetchSession + 1 }) := by
  have h : (s.fetchSession + 1).natAbs ≤ 2 ^ 53 := by omega
  simp [incrementFetchSession, roundToDouble_exact _ h]

/-- After `k` calls that stay in the exact range the counter has grown by
`k` and no other field has changed. -/
theorem afterIncrements_exact :
    ∀ (k : Nat) (s : State), -(2 ^ 53) < s.fetchSession → s.fetchSession + k ≤ 2 ^ 53 →
      afterIncrements k s = { s with fetchSession := s.fetchSession + k } := by
  intro k
  induction k with
  | zero =>
    intro s _ _
    simp [afterIncrements]
  | succ k ih =>
    intro s hlo hhi
    have hhi1 : s.fetchSession < 2 ^ 53 := by
      push_cast at hhi
      omega
    rw [afterIncrements, incrementFetchSession_exact s hlo hhi1]
    rw [ih _ (by simp only; omega) (by simp only; push_cast at hhi ⊢; omega)]
    simp only [Nat.cast_add, Nat.cast_one]
    congr 1
    omega

/-- C15: with `fetchSession = n` in the exactly representable range,
`incrementFetchSession` returns `n + 1`, leaves `state.fetchSession` equal to
the value it returns and changes no other field. Hence, as long as the counter
stays in that range, of two calls in a row of calls the later one returns the
greater id, and the id returned by the earlier one differs from
`state.fetchSession` after the later one. -/
theorem incrementFetchSession_returns_next (s : State) (n : Int) (hn : s.fetchSession = n)
    (hlo : -(2 ^ 53) < n) (hhi : n < 2 ^ 53) :
    (incrementFetchSession s).1 = n + 1 ∧
    (incrementFetchSession s).2.fetchSession = (incrementFetchSession s).1 ∧
    (incrementFetchSession s).2 = { s with fetchSession := n + 1 } ∧
    (∀ i j : Nat, i < j → n + j < 2 ^ 53 →
      (incrementFetchSession (afterIncrements i s)).1 <
        (incrementFetchSession (afterIncrements j s)).1 ∧
      (incrementFetchSession (afterIncrements i s)).1 ≠
        (afterIncrements (j + 1) s).fetchSession) := by
  subst hn
  have h0 := incrementFetchSession_exact s hlo hhi
  refine ⟨by rw [h0], by rw [h0], by rw [h0], ?_⟩
  intro i j hij hj
  have hi : afterIncrements i s = { s with fetchSession := s.fetchSession + i } :=
    afterIncrements_exact i s hlo (by omega)
  have hj0 : afterIncrements j s = { s with fetchSession := s.fetchSession + j } :=
    afterIncrements_exact j s hlo (by omega)
  have hj1 : afterIncrements (j + 1) s =
      { s with fetchSession := s.fetchSession + ((j + 1 : Nat) : Int) } :=
    afterIncrements_exact (j + 1) s hlo (by push_cast; omega)
  have ri := incrementFetchSession_exact (afterIncrements i s)
    (by rw [hi]; simp only; omega) (by rw [hi]; simp only; omega)
  have rj := incrementFetchSession_exact (afterIncrements j s)
    (by rw [hj0]; simp only; omega) (by rw [hj0]; simp only; omega)
  rw [ri, rj, hi, hj0, hj1]
  simp only
  push_cast
  constructor <;> omega

/-- C15, from the initial state: the first call returns 1 and leaves
`fetchSession` at 1, the second call returns more than the first, and the
first id is not the counter after the second call. -/
theorem incrementFetchSession_returns_next_witness :
    (incrementFetchSession State.initial).1 = 1 ∧
    (incrementFetchSession State.initial).2 = { State.initial with fetchSession := 1 } ∧
    (incrementFetchSession (afterIncrements 0 State.initial)).1 <
      (incrementFetchSession (afterIncrements 1 State.initial)).1 ∧
    (incrementFetchSession (afterIncrements 0 State.initial)).1 ≠
      (afterIncrements 2 State.initial).fetchSession :=
  have h := incrementFetchSession_returns_next State.initial 0 rfl (by decide) (by decide)
  ⟨h.1, h.2.2.1, (h.2.2.2 0 1 (by decide) (by decide)).1,
    (h.2.2.2 0 1 (by decide) (by decide)).2⟩

/-- Outside the exact range the counter sticks: from `2^53` the call returns
`2^53` again. -/
theorem incrementFetchSession_sticks :
    (incrementFetchSession { State.initial with fetchSession := 2 ^ 53 }).1 = 2 ^ 53 := by
  have hlog : Nat.log2 9007199254740993 = 53 := by
    have h1 : 53 ≤ Nat.log2 9007199254740993 := (Nat.le_log2 (by norm_num)).mpr (by norm_num)
    have h2 : Nat.log2 9007199254740993 < 54 := (Nat.log2_lt (by norm_num)).mpr (by norm_num)
    omega
  have habs : ((2 : Int) ^ 53 + 1).natAbs = 9007199254740993 := by decide
  have hsign : Int.sign ((2 : Int) ^ 53 + 1) = 1 := by decide
  show roundToDouble (2 ^ 53 + 1) = 2 ^ 53
  unfold roundToDouble
  simp only [habs, hlog, hsign]
  norm_num

end Views
